import Mathlib

/-!
# Gateway, cache-aside services and delivery lifecycle

A shallow embedding of the four Express applications of the repository:

* `service_delivery/app/index.js`, `service_orders/app/index.js`,
  `service_users/app/index.js`: the three record-keeping services, each with a
  Sequelize table and a Redis read cache;
* `api_gateway/app/index.js`: the gateway, its three circuit-breaker actions and
  its routes.

Every route callback is a pure function of the service state (table and cache),
the request (route parameter, typed body) and the readings of the clock and of
the random generator that the callback takes.  An `await` is sequential
composition; a `try`/`catch` is a `match` on an `Except`.  Requests are handled
one after another: a callback runs to its response before the next one starts.

Conventions of the embedding:

* a `Date` is its number of milliseconds since the epoch, and renders in JSON
  as that number; the clock is read once per request;
* a route parameter `:id` is the integer `parseInt` makes of it;
* a request body is typed: a field the callback only tests for truthiness is
  an `Option`, with `none` for a missing, `null` or otherwise falsy value of a
  non-string field; a string field keeps its text, the empty text being falsy;
* a text held by Redis is kept up to what a callback can observe of it: what
  `JSON.parse` makes of it and whether it is empty;
* `res.json` of a Sequelize instance renders its columns, through the method
  `toJSON()` of the instance.
-/

namespace Refactor3

/-! ## JSON values and the JavaScript operations the callbacks apply to them -/

/-- JSON values: the payloads of requests and responses. -/
inductive Json where
  | null
  | bool (b : Bool)
  | num (n : Int)
  | str (s : String)
  | arr (xs : List Json)
  | obj (fields : List (String × Json))

/-- The result of reading a property: a JSON value, or `undefined`. -/
inductive JsValue where
  | undefined
  | val (j : Json)

/-- The response object of axios. -/
structure AxiosResponse where
  status : Nat
  data : Json

/-- Exceptions a callback can meet; an axios error carries the response, if one was
received. -/
inductive JsError where
  | typeError
  | syntaxError
  | axiosError (response : Option AxiosResponse)
  | validationError
  | uniqueConstraintError
  | notNullViolation
  | openCircuit

/-- Property read `x.name`: a `TypeError` on `null`, the bound value on an object,
`undefined` on anything else. -/
def Json.prop (x : Json) (name : String) : Except JsError JsValue :=
  match x with
  | .null => .error .typeError
  | .obj fields =>
    match fields.lookup name with
    | some v => .ok (.val v)
    | none => .ok .undefined
  | _ => .ok .undefined

/-- Strict equality `v === 'text'` against a string literal. -/
def JsValue.strictEqStr (v : JsValue) (text : String) : Bool :=
  match v with
  | .val (.str s) => s == text
  | _ => false

/-- JavaScript truthiness, as tested by `if (v)`. -/
def JsValue.truthy (v : JsValue) : Bool :=
  match v with
  | .undefined => false
  | .val .null => false
  | .val (.bool b) => b
  | .val (.num n) => n != 0
  | .val (.str s) => s != ""
  | .val (.arr _) => true
  | .val (.obj _) => true

/-- Truthiness of an optional string field of a request body. -/
def truthyStr (v : Option String) : Bool :=
  match v with
  | some s => s != ""
  | none => false

/-- An HTTP response: `res.status(status).json(body)`. -/
structure HttpResponse where
  status : Nat
  body : Json

/-- The body `{ error: text }`. -/
def errorBody (text : String) : Json := .obj [("error", .str text)]

/-- The response of every outer `catch` block of the services and of the gateway. -/
def internalServerError : HttpResponse := ⟨500, errorBody "Internal server error"⟩

/-- Milliseconds since the epoch. -/
abbrev Date := Nat

/-- JSON rendering of an optional date column. -/
def Json.ofDate (d : Option Date) : Json :=
  match d with
  | some ms => .num ms
  | none => .null

/-! ## Redis -/

/-- A text held by Redis, up to what a callback observes: `JSON.parse` returns
`j` on `json j` and throws on `other`; only `other true` is the empty text. -/
inductive CachedText where
  | json (j : Json)
  | other (isEmpty : Bool)

/-- The text `JSON.stringify(j)`. -/
def JSON.stringify (j : Json) : CachedText := .json j

/-- The value `JSON.parse(text)`, or a `SyntaxError`. -/
def JSON.parse (text : CachedText) : Except JsError Json :=
  match text with
  | .json j => .ok j
  | .other _ => .error .syntaxError

/-- Truthiness of a text: every text but the empty one. -/
def CachedText.truthy (text : CachedText) : Bool :=
  match text with
  | .json _ => true
  | .other isEmpty => !isEmpty

/-- An entry of the cache: the text and the time to live it was stored with. -/
structure CacheEntry where
  value : CachedText
  ttl : Nat

/-- The Redis store: at most one entry per key. -/
abbrev Redis := String → Option CacheEntry

/-- The store with no entry. -/
def Redis.empty : Redis := fun _ => none

/-- The reply of `redisClient.get(key)`: the text, or `null`. -/
def Redis.get (c : Redis) (key : String) : Option CachedText :=
  (c key).map (fun e => e.value)

/-- The store after `redisClient.setEx(key, ttl, value)`. -/
def Redis.setEx (c : Redis) (key : String) (ttl : Nat) (value : CachedText) : Redis :=
  fun k => if k = key then some ⟨value, ttl⟩ else c k

/-- The store after `redisClient.del(key)`. -/
def Redis.del (c : Redis) (key : String) : Redis :=
  fun k => if k = key then none else c k

/-! ## Sequelize tables -/

/-- A Sequelize model: its primary key and its JSON rendering. -/
class Model (Row : Type) where
  pk : Row → Int
  toJSON : Row → Json

/-- A table: its rows and the next value of the `id` sequence. -/
structure Table (Row : Type) where
  rows : List Row
  nextId : Int

/-- Lookup `findByPk(id)`: the row with that primary key, or `null`. -/
def Table.findByPk {Row : Type} [Model Row] (t : Table Row) (id : Int) : Option Row :=
  t.rows.find? (fun r => Model.pk r == id)

/-- The table after an `UPDATE` of the row with the primary key of `r`. -/
def Table.update {Row : Type} [Model Row] (t : Table Row) (r : Row) : Table Row :=
  { t with rows := t.rows.map (fun x => if Model.pk x == Model.pk r then r else x) }

/-- The table after `destroy()` of the row with primary key `id`. -/
def Table.destroy {Row : Type} [Model Row] (t : Table Row) (id : Int) : Table Row :=
  { t with rows := t.rows.filter (fun x => Model.pk x != id) }

/-- The table after an `INSERT` of `r`, which takes the next value of the sequence. -/
def Table.insert {Row : Type} (t : Table Row) (r : Row) : Table Row :=
  { rows := t.rows ++ [r], nextId := t.nextId + 1 }

/-- The state of a service: its table and its cache. -/
structure ServiceState (Row : Type) where
  db : Table Row
  cache : Redis

/-- A response with a status from 200 to 299. -/
def HttpResponse.success (r : HttpResponse) : Bool := r.status ≥ 200 && r.status < 300

/-- Coherence of the cache with the table: an entry under the key of an id is the
serialization of the row the table holds for that id. -/
def Coherent {Row : Type} [Model Row] (getCacheKey : Int → String) (s : ServiceState Row) :
    Prop :=
  ∀ id e, s.cache (getCacheKey id) = some e →
    ∃ row, s.db.findByPk id = some row ∧ e.value = JSON.stringify (Model.toJSON row)

/-- The two ways a create, update or delete of the row `id` ends: refused, with the
state as it was and a status outside 200 to 299; or done, with the key of `id` deleted
from the cache and the other rows as they were. -/
def WriteOutcome {Row : Type} [Model Row] (getCacheKey : Int → String) (s : ServiceState Row)
    (id : Int) (result : HttpResponse × ServiceState Row) : Prop :=
  (result.2 = s ∧ result.1.success = false) ∨
  (∃ db, result.2 = ⟨db, s.cache.del (getCacheKey id)⟩ ∧
    ∀ id', id' ≠ id → db.findByPk id' = s.db.findByPk id')

/-! ## Delivery service (`service_delivery/app`) -/

/-- A row of table `deliveries` (`models.js`). -/
structure Delivery where
  id : Int
  order_id : Int
  address : String
  status : String
  tracking_number : String
  estimated_delivery_date : Option Date
  actual_delivery_date : Option Date
  createdAt : Date
  updatedAt : Date
deriving DecidableEq

namespace DeliveryService

/-- Cache time to live, in seconds. -/
def CACHE_TTL : Nat := 300

/-- The values the validator `isIn` of column `status` accepts. -/
def statusValues : List String := ["pending", "in_transit", "delivered", "cancelled", "failed"]

/-- JSON rendering of a delivery. -/
def toJSON (d : Delivery) : Json :=
  .obj [("id", .num d.id), ("order_id", .num d.order_id), ("address", .str d.address),
    ("status", .str d.status), ("tracking_number", .str d.tracking_number),
    ("estimated_delivery_date", Json.ofDate d.estimated_delivery_date),
    ("actual_delivery_date", Json.ofDate d.actual_delivery_date),
    ("createdAt", .num d.createdAt), ("updatedAt", .num d.updatedAt)]

instance : Model Delivery := ⟨Delivery.id, toJSON⟩

/-- Helper `getCacheKey(deliveryId)`. -/
def getCacheKey (deliveryId : Int) : String := "delivery:" ++ toString deliveryId

/-- The body `{ error: 'Delivery not found' }` with status 404. -/
def notFound : HttpResponse := ⟨404, errorBody "Delivery not found"⟩

/-- The typed body of `PUT /deliveries/:id`. -/
structure UpdateBody where
  address : Option String
  status : Option String
  estimated_delivery_date : Option Date
  actual_delivery_date : Option Date

/-- The body `{ status: status }`, with no other field. -/
def statusOnly (status : String) : UpdateBody :=
  { address := none, status := some status, estimated_delivery_date := none,
    actual_delivery_date := none }

/-- The assignments of `PUT /deliveries/:id` (lines 166 to 175) on the instance read
from the table; `now` is the reading of `new Date()`. -/
def applyUpdate (now : Date) (delivery : Delivery) (body : UpdateBody) : Delivery :=
  let delivery :=
    match body.address with
    | some address => if address != "" then { delivery with address := address } else delivery
    | none => delivery
  let delivery :=
    match body.status with
    | some status =>
      if status != "" then
        let delivery := { delivery with status := status }
        if status = "delivered" ∧ delivery.actual_delivery_date.isNone then
          { delivery with actual_delivery_date := some now }
        else delivery
      else delivery
    | none => delivery
  let delivery :=
    match body.estimated_delivery_date with
    | some date => { delivery with estimated_delivery_date := some date }
    | none => delivery
  let delivery :=
    match body.actual_delivery_date with
    | some date => { delivery with actual_delivery_date := some date }
    | none => delivery
  delivery

/-- Persisting `delivery.save()`: an unchanged instance is not written; the validator
of `status` runs when `status` has changed; a changed instance is written with
`updatedAt` stamped. -/
def save (db : Table Delivery) (now : Date) (old delivery : Delivery) :
    Except JsError (Delivery × Table Delivery) :=
  if delivery = old then .ok (delivery, db)
  else if delivery.status ≠ old.status ∧ delivery.status ∉ statusValues then
    .error .validationError
  else
    let saved := { delivery with updatedAt := now }
    .ok (saved, db.update saved)

/-- Route `PUT /deliveries/:id` (lines 154 to 188). -/
def putDelivery (s : ServiceState Delivery) (now : Date) (deliveryId : Int)
    (body : UpdateBody) : HttpResponse × ServiceState Delivery :=
  match s.db.findByPk deliveryId with
  | none => (notFound, s)
  | some delivery =>
    match save s.db now delivery (applyUpdate now delivery body) with
    | .error _ => (internalServerError, s)
    | .ok (saved, db) =>
      (⟨200, toJSON saved⟩, { db := db, cache := s.cache.del (getCacheKey deliveryId) })

/-- Route `DELETE /deliveries/:id` (lines 191 to 213). -/
def deleteDelivery (s : ServiceState Delivery) (deliveryId : Int) :
    HttpResponse × ServiceState Delivery :=
  match s.db.findByPk deliveryId with
  | none => (notFound, s)
  | some delivery =>
    let deletedDelivery := toJSON delivery
    (⟨200, .obj [("message", .str "Delivery deleted"), ("deletedDelivery", deletedDelivery)]⟩,
      { db := s.db.destroy deliveryId, cache := s.cache.del (getCacheKey deliveryId) })

/-- Route `GET /deliveries/:id` (lines 102 to 131). -/
def getDeliveryById (s : ServiceState Delivery) (deliveryId : Int) :
    HttpResponse × ServiceState Delivery :=
  let cacheKey := getCacheKey deliveryId
  let cachedData := s.cache.get cacheKey
  let hit :=
    match cachedData with
    | some text => if text.truthy then some text else none
    | none => none
  match hit with
  | some text =>
    match JSON.parse text with
    | .ok snapshot => (⟨200, snapshot⟩, s)
    | .error _ => (internalServerError, s)
  | none =>
    match s.db.findByPk deliveryId with
    | none => (notFound, s)
    | some delivery =>
      (⟨200, toJSON delivery⟩,
        { s with cache := s.cache.setEx cacheKey CACHE_TTL (JSON.stringify (toJSON delivery)) })

/-- Left padding `text.padStart(width, '0')`. -/
def padStart (text : String) (width : Nat) : String :=
  String.mk (List.replicate (width - text.length) '0') ++ text

/-- Helper `generateTrackingNumber()`; `timestamp` is the reading of `Date.now()`, an
integer that the template renders in plain decimal, and `random` the value of
`Math.floor(Math.random() * 10000)`, from 0 to 9999. -/
def generateTrackingNumber (timestamp : Nat) (random : Nat) : String :=
  "TRK" ++ toString timestamp ++ padStart (toString random) 4

/-- The typed body of `POST /deliveries`. -/
structure CreateBody where
  order_id : Option Int
  address : Option String
  status : Option String
  estimated_delivery_date : Option Date

/-- Three days, in milliseconds. -/
def threeDays : Nat := 3 * 24 * 60 * 60 * 1000

/-- Persisting `Delivery.create(values)`: the validator of `status` runs, then the
insert, which the primary key and the unique index on `tracking_number` can refuse. -/
def create (db : Table Delivery) (now : Date) (order_id : Int) (address status : String)
    (tracking_number : String) (estimated_delivery_date : Option Date) :
    Except JsError (Delivery × Table Delivery) :=
  if status ∈ statusValues then
    if (db.findByPk db.nextId).isSome then .error .uniqueConstraintError
    else if db.rows.any (fun r => r.tracking_number == tracking_number) then
      .error .uniqueConstraintError
    else
      let newDelivery : Delivery :=
        { id := db.nextId, order_id := order_id, address := address, status := status,
          tracking_number := tracking_number,
          estimated_delivery_date := estimated_delivery_date,
          actual_delivery_date := none, createdAt := now, updatedAt := now }
      .ok (newDelivery, db.insert newDelivery)
  else .error .validationError

/-- Route `POST /deliveries` (lines 63 to 99). -/
def postDelivery (s : ServiceState Delivery) (now : Date) (random : Nat) (body : CreateBody) :
    HttpResponse × ServiceState Delivery :=
  match body.order_id, body.address with
  | some order_id, some address =>
    if order_id = 0 ∨ address = "" then
      (⟨400, errorBody "order_id and address are required"⟩, s)
    else
      let trackingNumber := generateTrackingNumber now random
      let estimatedDate :=
        match body.estimated_delivery_date with
        | some date => date
        | none => now + threeDays
      let status :=
        match body.status with
        | some status => if status != "" then status else "pending"
        | none => "pending"
      match create s.db now order_id address status trackingNumber (some estimatedDate) with
      | .error _ => (internalServerError, s)
      | .ok (newDelivery, db) =>
        (⟨201, toJSON newDelivery⟩,
          { db := db, cache := s.cache.del (getCacheKey newDelivery.id) })
  | _, _ => (⟨400, errorBody "order_id and address are required"⟩, s)

end DeliveryService

/-- Digit value of a character in the given radix. -/
def digitValue (radix : Nat) (c : Char) : Option Nat :=
  let v :=
    if c.isDigit then some (c.toNat - 48)
    else if 97 ≤ c.toNat ∧ c.toNat ≤ 122 then some (c.toNat - 87)
    else if 65 ≤ c.toNat ∧ c.toNat ≤ 90 then some (c.toNat - 55)
    else none
  match v with
  | some d => if d < radix then some d else none
  | none => none

/-- The longest run of digits at the head of `cs`, as a number; `none` when there is
no digit. -/
def parseDigits (radix : Nat) (cs : List Char) (acc : Option Nat) : Option Nat :=
  match cs with
  | [] => acc
  | c :: rest =>
    match digitValue radix c with
    | some d => parseDigits radix rest (some (acc.getD 0 * radix + d))
    | none => acc

/-- Global `parseInt(text)`: leading white space, a sign, an optional `0x`, then digits;
`none` stands for `NaN`. -/
def parseInt (text : String) : Option Int :=
  let cs := text.toList.dropWhile Char.isWhitespace
  let (negative, cs) :=
    match cs with
    | '-' :: rest => (true, rest)
    | '+' :: rest => (false, rest)
    | _ => (false, cs)
  let magnitude :=
    match cs with
    | '0' :: 'x' :: rest => parseDigits 16 rest none
    | '0' :: 'X' :: rest => parseDigits 16 rest none
    | _ => parseDigits 10 cs none
  match magnitude with
  | some m => some (if negative then - (m : Int) else (m : Int))
  | none => none

namespace DeliveryService

/-- Route `GET /deliveries` (lines 42 to 60); `order_id` is `req.query.order_id`. -/
def getDeliveries (s : ServiceState Delivery) (order_id : Option String) :
    HttpResponse × ServiceState Delivery :=
  let orderId : Option Int :=
    match order_id with
    | some text => if text != "" then parseInt text else none
    | none => none
  let narrowed :=
    match orderId with
    | some n => if n != 0 then some n else none
    | none => none
  let deliveries : List Delivery :=
    match narrowed with
    | some n => s.db.rows.filter (fun (d : Delivery) => d.order_id == n)
    | none => s.db.rows
  (⟨200, .arr (deliveries.map toJSON)⟩, s)

/-- Route `GET /deliveries/tracking/:trackingNumber` (lines 134 to 151). -/
def getDeliveryByTracking (s : ServiceState Delivery) (trackingNumber : String) :
    HttpResponse × ServiceState Delivery :=
  match s.db.rows.find? (fun (d : Delivery) => d.tracking_number == trackingNumber) with
  | none => (notFound, s)
  | some delivery => (⟨200, toJSON delivery⟩, s)

/-- A request to the delivery service, with the readings its callback takes. -/
inductive Request where
  | getDeliveries (order_id : Option String)
  | postDelivery (now : Date) (random : Nat) (body : CreateBody)
  | getDeliveryById (deliveryId : Int)
  | getDeliveryByTracking (trackingNumber : String)
  | putDelivery (now : Date) (deliveryId : Int) (body : UpdateBody)
  | deleteDelivery (deliveryId : Int)

/-- The callback of the route a request addresses. -/
def handle (s : ServiceState Delivery) (r : Request) : HttpResponse × ServiceState Delivery :=
  match r with
  | .getDeliveries order_id => getDeliveries s order_id
  | .postDelivery now random body => postDelivery s now random body
  | .getDeliveryById deliveryId => getDeliveryById s deliveryId
  | .getDeliveryByTracking trackingNumber => getDeliveryByTracking s trackingNumber
  | .putDelivery now deliveryId body => putDelivery s now deliveryId body
  | .deleteDelivery deliveryId => deleteDelivery s deliveryId

/-- The state after a sequence of requests handled one after another. -/
def run (s : ServiceState Delivery) (rs : List Request) : ServiceState Delivery :=
  rs.foldl (fun st r => (handle st r).2) s

/-- The id of the row a request creates, updates or deletes; `none` for a read. -/
def writes (s : ServiceState Delivery) (r : Request) : Option Int :=
  match r with
  | .postDelivery _ _ _ => some s.db.nextId
  | .putDelivery _ deliveryId _ => some deliveryId
  | .deleteDelivery deliveryId => some deliveryId
  | _ => none

end DeliveryService

/-! ## Axios -/

/-- What the network gives to an axios call: an HTTP response, or no response at all
(connection refused or reset, transport timeout). -/
inductive AxiosOutcome where
  | response (status : Nat) (data : Json)
  | noResponse

/-- The call `axios(config)` settles: it resolves with the response when
`validateStatus` accepts the status, and rejects otherwise. -/
def axios (validateStatus : Nat → Bool) (outcome : AxiosOutcome) :
    Except JsError AxiosResponse :=
  match outcome with
  | .response status data =>
    if validateStatus status then .ok ⟨status, data⟩
    else .error (.axiosError (some ⟨status, data⟩))
  | .noResponse => .error (.axiosError none)

/-- What the network gives when the service called answers with `r`. -/
def AxiosOutcome.ofResponse (r : HttpResponse) : AxiosOutcome := .response r.status r.body

/-- The default `validateStatus` of axios. -/
def defaultValidateStatus (status : Nat) : Bool := status ≥ 200 && status < 300

/-- The JSON object with the properties that are not `undefined`, as `JSON.stringify`
writes it. -/
def Json.ofProps (props : List (String × JsValue)) : Json :=
  .obj (props.filterMap (fun p =>
    match p.2 with
    | .val j => some (p.1, j)
    | .undefined => none))

/-! ## Orders service (`service_orders/app`) -/

/-- A row of table `orders` (`models.js`); `amount` counts hundredths. -/
structure Order where
  id : Int
  user_id : Int
  product : String
  amount : Option Int
  status : String
  createdAt : Date
  updatedAt : Date
deriving DecidableEq

/-- The value of a body field that the callback compares with `undefined`. -/
inductive Field (α : Type) where
  | undefined
  | null
  | val (a : α)

namespace OrdersService

/-- Cache time to live, in seconds. -/
def CACHE_TTL : Nat := 300

/-- JSON rendering of the columns of an order. -/
def toJSON (o : Order) : Json :=
  .obj [("id", .num o.id), ("user_id", .num o.user_id), ("product", .str o.product),
    ("amount", match o.amount with
      | some a => .num a
      | none => .null),
    ("status", .str o.status), ("createdAt", .num o.createdAt), ("updatedAt", .num o.updatedAt)]

instance : Model Order := ⟨Order.id, toJSON⟩

/-- Helper `getCacheKey(orderId)`. -/
def getCacheKey (orderId : Int) : String := "order:" ++ toString orderId

/-- The body `{ error: 'Order not found' }` with status 404. -/
def notFound : HttpResponse := ⟨404, errorBody "Order not found"⟩

/-- The typed body of `POST /orders`. -/
structure CreateBody where
  user_id : Option Int
  product : Option String
  amount : Option Int
  status : Option String
  delivery_address : Option String

/-- The typed body of `PUT /orders/:orderId`. -/
structure UpdateBody where
  user_id : Field Int
  product : Option String
  amount : Field Int
  status : Option String

/-- Persisting `Order.create(values)`: the insert, which the primary key can refuse. -/
def create (db : Table Order) (now : Date) (user_id : Int) (product : String) (amount : Int)
    (status : String) : Except JsError (Order × Table Order) :=
  if (db.findByPk db.nextId).isSome then .error .uniqueConstraintError
  else
    let newOrder : Order :=
      { id := db.nextId, user_id := user_id, product := product, amount := some amount,
        status := status, createdAt := now, updatedAt := now }
    .ok (newOrder, db.insert newOrder)

/-- The inner `try` of `POST /orders` (lines 77 to 95): the call to the delivery service
and the `delivery_info` it gives, `none` when the `catch` took over. -/
def deliveryInfo (delivery : AxiosOutcome) : Option Json :=
  let attempt : Except JsError Json := do
    let deliveryResponse ← axios defaultValidateStatus delivery
    let tracking_number ← deliveryResponse.data.prop "tracking_number"
    let estimated_delivery_date ← deliveryResponse.data.prop "estimated_delivery_date"
    pure (Json.ofProps [("tracking_number", tracking_number),
      ("estimated_delivery_date", estimated_delivery_date)])
  match attempt with
  | .ok info => some info
  | .error _ => none

/-- A Sequelize instance of model `Order` as `POST /orders` holds it: the columns
(`dataValues`), and the property `delivery_info` that line 88 assigns on the object. -/
structure Instance where
  dataValues : Order
  delivery_info : Option Json

/-- Method `toJSON()` of a Sequelize instance, which `res.json` calls through
`JSON.stringify`: the columns of the model; a property assigned on the object that is
not a column is not rendered. -/
def Instance.toJSON (newOrder : Instance) : Json := OrdersService.toJSON newOrder.dataValues

/-- The delivery step of `POST /orders` (lines 76 to 96) on the instance that
`Order.create` returned. -/
def attachDelivery (created : Order) (delivery_address : Option String)
    (delivery : AxiosOutcome) : Instance :=
  let newOrder : Instance := { dataValues := created, delivery_info := none }
  if truthyStr delivery_address then
    match deliveryInfo delivery with
    | some info => { newOrder with delivery_info := some info }
    | none => newOrder
  else newOrder

/-- Route `POST /orders` (lines 58 to 107); `delivery` is what the network gives to the
call that creates the delivery. -/
def postOrder (s : ServiceState Order) (now : Date) (delivery : AxiosOutcome)
    (body : CreateBody) : HttpResponse × ServiceState Order :=
  match body.user_id, body.product with
  | some user_id, some product =>
    if user_id = 0 ∨ product = "" then
      (⟨400, errorBody "user_id and product are required"⟩, s)
    else
      let amount :=
        match body.amount with
        | some a => a
        | none => 0
      let status :=
        match body.status with
        | some status => if status != "" then status else "pending"
        | none => "pending"
      match create s.db now user_id product amount status with
      | .error _ => (internalServerError, s)
      | .ok (created, db) =>
        let newOrder := attachDelivery created body.delivery_address delivery
        (⟨201, newOrder.toJSON⟩,
          { db := db, cache := s.cache.del (getCacheKey newOrder.dataValues.id) })
  | _, _ => (⟨400, errorBody "user_id and product are required"⟩, s)

/-- Route `GET /orders/:orderId` (lines 110 to 139). -/
def getOrderById (s : ServiceState Order) (orderId : Int) : HttpResponse × ServiceState Order :=
  let cacheKey := getCacheKey orderId
  let cachedData := s.cache.get cacheKey
  let hit :=
    match cachedData with
    | some text => if text.truthy then some text else none
    | none => none
  match hit with
  | some text =>
    match JSON.parse text with
    | .ok snapshot => (⟨200, snapshot⟩, s)
    | .error _ => (internalServerError, s)
  | none =>
    match s.db.findByPk orderId with
    | none => (notFound, s)
    | some order =>
      (⟨200, toJSON order⟩,
        { s with cache := s.cache.setEx cacheKey CACHE_TTL (JSON.stringify (toJSON order)) })

/-- The assignments of `PUT /orders/:orderId` (lines 154 to 157); a `null` for the
column `user_id`, which is not nullable, is refused when the instance is saved. -/
def applyUpdate (order : Order) (body : UpdateBody) : Except JsError Order := do
  let order ←
    match body.user_id with
    | .undefined => pure order
    | .null => throw JsError.notNullViolation
    | .val user_id => pure { order with user_id := user_id }
  let order :=
    match body.product with
    | some product => if product != "" then { order with product := product } else order
    | none => order
  let order :=
    match body.amount with
    | .undefined => order
    | .null => { order with amount := none }
    | .val amount => { order with amount := some amount }
  let order :=
    match body.status with
    | some status => if status != "" then { order with status := status } else order
    | none => order
  pure order

/-- Persisting `order.save()`: a changed instance is written with `updatedAt` stamped,
an unchanged one is not written. -/
def save (db : Table Order) (now : Date) (old order : Order) : Order × Table Order :=
  if order = old then (order, db)
  else
    let saved := { order with updatedAt := now }
    (saved, db.update saved)

/-- Route `PUT /orders/:orderId` (lines 142 to 170). -/
def putOrder (s : ServiceState Order) (now : Date) (orderId : Int) (body : UpdateBody) :
    HttpResponse × ServiceState Order :=
  match s.db.findByPk orderId with
  | none => (notFound, s)
  | some order =>
    match applyUpdate order body with
    | .error _ => (internalServerError, s)
    | .ok updated =>
      let (saved, db) := save s.db now order updated
      (⟨200, toJSON saved⟩, { db := db, cache := s.cache.del (getCacheKey orderId) })

/-- Route `DELETE /orders/:orderId` (lines 173 to 195). -/
def deleteOrder (s : ServiceState Order) (orderId : Int) : HttpResponse × ServiceState Order :=
  match s.db.findByPk orderId with
  | none => (notFound, s)
  | some order =>
    let deletedOrder := toJSON order
    (⟨200, .obj [("message", .str "Order deleted"), ("deletedOrder", deletedOrder)]⟩,
      { db := s.db.destroy orderId, cache := s.cache.del (getCacheKey orderId) })

/-- Route `GET /orders` (lines 37 to 55); `user_id` is `req.query.user_id`. -/
def getOrders (s : ServiceState Order) (user_id : Option String) :
    HttpResponse × ServiceState Order :=
  let userId : Option Int :=
    match user_id with
    | some text => if text != "" then parseInt text else none
    | none => none
  let narrowed :=
    match userId with
    | some n => if n != 0 then some n else none
    | none => none
  let orders : List Order :=
    match narrowed with
    | some n => s.db.rows.filter (fun (o : Order) => o.user_id == n)
    | none => s.db.rows
  (⟨200, .arr (orders.map toJSON)⟩, s)

/-- A request to the orders service, with the readings its callback takes. -/
inductive Request where
  | getOrders (user_id : Option String)
  | postOrder (now : Date) (delivery : AxiosOutcome) (body : CreateBody)
  | getOrderById (orderId : Int)
  | putOrder (now : Date) (orderId : Int) (body : UpdateBody)
  | deleteOrder (orderId : Int)

/-- The callback of the route a request addresses. -/
def handle (s : ServiceState Order) (r : Request) : HttpResponse × ServiceState Order :=
  match r with
  | .getOrders user_id => getOrders s user_id
  | .postOrder now delivery body => postOrder s now delivery body
  | .getOrderById orderId => getOrderById s orderId
  | .putOrder now orderId body => putOrder s now orderId body
  | .deleteOrder orderId => deleteOrder s orderId

/-- The state after a sequence of requests handled one after another. -/
def run (s : ServiceState Order) (rs : List Request) : ServiceState Order :=
  rs.foldl (fun st r => (handle st r).2) s

/-- The id of the row a request creates, updates or deletes; `none` for a read. -/
def writes (s : ServiceState Order) (r : Request) : Option Int :=
  match r with
  | .postOrder _ _ _ => some s.db.nextId
  | .putOrder _ orderId _ => some orderId
  | .deleteOrder orderId => some orderId
  | _ => none

end OrdersService

/-! ## Users service (`service_users/app`) -/

/-- A row of table `users` (`models.js`). -/
structure User where
  id : Int
  email : String
  full_name : String
  createdAt : Date
  updatedAt : Date
deriving DecidableEq

namespace UsersService

/-- Cache time to live, in seconds. -/
def CACHE_TTL : Nat := 300

/-- JSON rendering of a user. -/
def toJSON (u : User) : Json :=
  .obj [("id", .num u.id), ("email", .str u.email), ("full_name", .str u.full_name),
    ("createdAt", .num u.createdAt), ("updatedAt", .num u.updatedAt)]

instance : Model User := ⟨User.id, toJSON⟩

/-- Helper `getCacheKey(userId)`. -/
def getCacheKey (userId : Int) : String := "user:" ++ toString userId

/-- The body `{ error: 'User not found' }` with status 404. -/
def notFound : HttpResponse := ⟨404, errorBody "User not found"⟩

/-- The body `{ error: 'Email already exists' }` with status 400. -/
def emailExists : HttpResponse := ⟨400, errorBody "Email already exists"⟩

/-- The typed body of `POST /users` and of `PUT /users/:userId`. -/
structure Body where
  email : Option String
  full_name : Option String

/-- The `catch` block of `POST /users` and of `PUT /users/:userId`. -/
def onError (error : JsError) : HttpResponse :=
  match error with
  | .uniqueConstraintError => emailExists
  | _ => internalServerError

/-- Persisting `User.create(values)`: the validator `isEmail` runs, then the insert,
which the unique index on `email` and the primary key can refuse. -/
def create (isEmail : String → Bool) (db : Table User) (now : Date) (email full_name : String) :
    Except JsError (User × Table User) :=
  if isEmail email then
    if db.rows.any (fun (u : User) => u.email == email) then .error .uniqueConstraintError
    else if (db.findByPk db.nextId).isSome then .error .uniqueConstraintError
    else
      let newUser : User :=
        { id := db.nextId, email := email, full_name := full_name,
          createdAt := now, updatedAt := now }
      .ok (newUser, db.insert newUser)
  else .error .validationError

/-- Route `POST /users` (lines 46 to 68). -/
def postUser (isEmail : String → Bool) (s : ServiceState User) (now : Date) (body : Body) :
    HttpResponse × ServiceState User :=
  match body.email, body.full_name with
  | some email, some full_name =>
    if email = "" ∨ full_name = "" then
      (⟨400, errorBody "Email and full_name are required"⟩, s)
    else
      match create isEmail s.db now email full_name with
      | .error error => (onError error, s)
      | .ok (newUser, db) =>
        (⟨201, toJSON newUser⟩, { db := db, cache := s.cache.del (getCacheKey newUser.id) })
  | _, _ => (⟨400, errorBody "Email and full_name are required"⟩, s)

/-- Route `GET /users/:userId` (lines 71 to 100). -/
def getUserById (s : ServiceState User) (userId : Int) : HttpResponse × ServiceState User :=
  let cacheKey := getCacheKey userId
  let cachedData := s.cache.get cacheKey
  let hit :=
    match cachedData with
    | some text => if text.truthy then some text else none
    | none => none
  match hit with
  | some text =>
    match JSON.parse text with
    | .ok snapshot => (⟨200, snapshot⟩, s)
    | .error _ => (internalServerError, s)
  | none =>
    match s.db.findByPk userId with
    | none => (notFound, s)
    | some user =>
      (⟨200, toJSON user⟩,
        { s with cache := s.cache.setEx cacheKey CACHE_TTL (JSON.stringify (toJSON user)) })

/-- The assignments of `PUT /users/:userId` (lines 115 and 116). -/
def applyUpdate (user : User) (body : Body) : User :=
  let user :=
    match body.email with
    | some email => if email != "" then { user with email := email } else user
    | none => user
  let user :=
    match body.full_name with
    | some full_name => if full_name != "" then { user with full_name := full_name } else user
    | none => user
  user

/-- Persisting `user.save()`: an unchanged instance is not written; the validator
`isEmail` runs when `email` has changed, and the unique index refuses an email that
another row has; a changed instance is written with `updatedAt` stamped. -/
def save (isEmail : String → Bool) (db : Table User) (now : Date) (old user : User) :
    Except JsError (User × Table User) :=
  if user = old then .ok (user, db)
  else if user.email ≠ old.email ∧ isEmail user.email = false then .error .validationError
  else if user.email ≠ old.email ∧
      db.rows.any (fun (u : User) => u.id != user.id && u.email == user.email) = true then
    .error .uniqueConstraintError
  else
    let saved := { user with updatedAt := now }
    .ok (saved, db.update saved)

/-- Route `PUT /users/:userId` (lines 103 to 132). -/
def putUser (isEmail : String → Bool) (s : ServiceState User) (now : Date) (userId : Int)
    (body : Body) : HttpResponse × ServiceState User :=
  match s.db.findByPk userId with
  | none => (notFound, s)
  | some user =>
    match save isEmail s.db now user (applyUpdate user body) with
    | .error error => (onError error, s)
    | .ok (saved, db) =>
      (⟨200, toJSON saved⟩, { db := db, cache := s.cache.del (getCacheKey userId) })

/-- Route `DELETE /users/:userId` (lines 135 to 157). -/
def deleteUser (s : ServiceState User) (userId : Int) : HttpResponse × ServiceState User :=
  match s.db.findByPk userId with
  | none => (notFound, s)
  | some user =>
    let deletedUser := toJSON user
    (⟨200, .obj [("message", .str "User deleted"), ("deletedUser", deletedUser)]⟩,
      { db := s.db.destroy userId, cache := s.cache.del (getCacheKey userId) })

/-- Route `GET /users` (lines 35 to 43). -/
def getUsers (s : ServiceState User) : HttpResponse × ServiceState User :=
  (⟨200, .arr (s.db.rows.map toJSON)⟩, s)

/-- A request to the users service, with the readings its callback takes. -/
inductive Request where
  | getUsers
  | postUser (now : Date) (body : Body)
  | getUserById (userId : Int)
  | putUser (now : Date) (userId : Int) (body : Body)
  | deleteUser (userId : Int)

/-- The callback of the route a request addresses; `isEmail` is the validator of
column `email`. -/
def handle (isEmail : String → Bool) (s : ServiceState User) (r : Request) :
    HttpResponse × ServiceState User :=
  match r with
  | .getUsers => getUsers s
  | .postUser now body => postUser isEmail s now body
  | .getUserById userId => getUserById s userId
  | .putUser now userId body => putUser isEmail s now userId body
  | .deleteUser userId => deleteUser s userId

/-- The state after a sequence of requests handled one after another. -/
def run (isEmail : String → Bool) (s : ServiceState User) (rs : List Request) :
    ServiceState User :=
  rs.foldl (fun st r => (handle isEmail st r).2) s

/-- The id of the row a request creates, updates or deletes; `none` for a read. -/
def writes (s : ServiceState User) (r : Request) : Option Int :=
  match r with
  | .postUser _ _ => some s.db.nextId
  | .putUser _ userId _ => some userId
  | .deleteUser userId => some userId
  | _ => none

end UsersService

/-! ## Circuit breaker -/

/-- The state of a breaker. -/
inductive BreakerStatus where
  | closed
  | opened
  | halfOpen
deriving DecidableEq

/-- The record of a breaker: its state, the calls and failures of the rolling window
and the time it opened. -/
structure CircuitState where
  state : BreakerStatus
  failureCount : Nat
  requestCount : Nat
  openedAt : Nat

/-- The options a breaker is built with. -/
structure CircuitOptions where
  timeout : Nat
  errorThresholdPercentage : Nat
  resetTimeout : Nat

/-- What a call through a breaker gives: the settled promise, the record afterwards
and whether the operation was executed. -/
structure FireResult where
  payload : Except JsError Json
  circuit : CircuitState
  executed : Bool

/-- A breaker before its first call. -/
def CircuitState.initial : CircuitState := ⟨.closed, 0, 0, 0⟩

/-- Modelled from the spec: the breaker of library `opossum` (its `fire`), which the
repository imports and does not contain.  A closed breaker executes the operation and
counts the call, and a thrown error as a failure; it opens when the failure rate
reaches the threshold.  An open breaker returns the fallback without executing, and
tries one call once `resetTimeout` has elapsed; that call closes it or opens it again.
A failed call settles with the fallback when one is registered. -/
def CircuitState.fire (options : CircuitOptions) (fallback : Option Json) (c : CircuitState)
    (now : Nat) (operation : Except JsError Json) : FireResult :=
  let failed (error : JsError) : Except JsError Json :=
    match fallback with
    | some value => .ok value
    | none => .error error
  let state :=
    if c.state = .opened ∧ now ≥ c.openedAt + options.resetTimeout then BreakerStatus.halfOpen
    else c.state
  match state with
  | .opened => ⟨failed .openCircuit, c, false⟩
  | .halfOpen =>
    match operation with
    | .ok value => ⟨.ok value, ⟨.closed, 0, 0, c.openedAt⟩, true⟩
    | .error error => ⟨failed error, ⟨.opened, c.failureCount, c.requestCount, now⟩, true⟩
  | .closed =>
    match operation with
    | .ok value => ⟨.ok value, { c with requestCount := c.requestCount + 1 }, true⟩
    | .error error =>
      let failureCount := c.failureCount + 1
      let requestCount := c.requestCount + 1
      if failureCount * 100 ≥ options.errorThresholdPercentage * requestCount then
        ⟨failed error, ⟨.opened, failureCount, requestCount, now⟩, true⟩
      else ⟨failed error, ⟨.closed, failureCount, requestCount, c.openedAt⟩, true⟩

/-- A sequence of calls through a breaker, one after another, each with its time and
with what the operation gives when it is executed: the results in order, and the
record of the breaker afterwards. -/
def CircuitState.fireAll (options : CircuitOptions) (fallback : Option Json) (c : CircuitState)
    (calls : List (Nat × Except JsError Json)) : List FireResult × CircuitState :=
  match calls with
  | [] => ([], c)
  | (now, operation) :: rest =>
    let result := c.fire options fallback now operation
    let (results, final) := result.circuit.fireAll options fallback rest
    (result :: results, final)

/-! ## Gateway (`api_gateway/app`) -/

namespace Gateway

/-- The options of the three breakers (lines 21 to 25). -/
def circuitOptions : CircuitOptions :=
  { timeout := 3000, errorThresholdPercentage := 50, resetTimeout := 3000 }

/-- The `validateStatus` the three operations pass to axios. -/
def validateStatus (status : Nat) : Bool := (status ≥ 200 && status < 300) || status == 404

/-- The operation of `usersCircuit`, `ordersCircuit` and `deliveryCircuit` (lines 28 to
71: three copies of one function); `outcome` is what the network gives to the call. -/
def operation (outcome : AxiosOutcome) : Except JsError Json :=
  match axios validateStatus outcome with
  | .ok response => .ok response.data
  | .error error =>
    match error with
    | .axiosError (some response) =>
      if response.status = 404 then .ok response.data else .error error
    | _ => .error error

/-- The fallback of `usersCircuit` (line 74). -/
def usersFallback : Json := errorBody "Users service temporarily unavailable"

/-- The fallback of `ordersCircuit` (line 75). -/
def ordersFallback : Json := errorBody "Orders service temporarily unavailable"

/-- The fallback of `deliveryCircuit` (line 76). -/
def deliveryFallback : Json := errorBody "Delivery service temporarily unavailable"

/-- The call `usersCircuit.fire(url, options)`. -/
def usersCircuit (c : CircuitState) (now : Nat) (outcome : AxiosOutcome) : FireResult :=
  c.fire circuitOptions (some usersFallback) now (operation outcome)

/-- The call `ordersCircuit.fire(url, options)`. -/
def ordersCircuit (c : CircuitState) (now : Nat) (outcome : AxiosOutcome) : FireResult :=
  c.fire circuitOptions (some ordersFallback) now (operation outcome)

/-- The call `deliveryCircuit.fire(url, options)`. -/
def deliveryCircuit (c : CircuitState) (now : Nat) (outcome : AxiosOutcome) : FireResult :=
  c.fire circuitOptions (some deliveryFallback) now (operation outcome)

/-- The `try`/`catch` every route is wrapped in: an exception gives status 500. -/
def tryCatch (body : Except JsError HttpResponse) : HttpResponse :=
  match body with
  | .ok response => response
  | .error _ => internalServerError

/-- Route `GET /users/:userId` (lines 79 to 90); `fired` is the settled call. -/
def getUser (fired : Except JsError Json) : HttpResponse :=
  tryCatch do
    let user ← fired
    let error ← user.prop "error"
    if error.strictEqStr "User not found" then pure ⟨404, user⟩ else pure ⟨200, user⟩

/-- Route `POST /users` (lines 92 to 102). -/
def postUser (fired : Except JsError Json) : HttpResponse :=
  tryCatch do
    let user ← fired
    pure ⟨201, user⟩

/-- Route `GET /users` (lines 104 to 111). -/
def getUsers (fired : Except JsError Json) : HttpResponse :=
  tryCatch do
    let users ← fired
    pure ⟨200, users⟩

/-- Route `DELETE /users/:userId` (lines 113 to 122). -/
def deleteUser (fired : Except JsError Json) : HttpResponse :=
  tryCatch do
    let result ← fired
    pure ⟨200, result⟩

/-- Route `PUT /users/:userId` (lines 124 to 134). -/
def putUser (fired : Except JsError Json) : HttpResponse :=
  tryCatch do
    let user ← fired
    pure ⟨200, user⟩

/-- Route `GET /orders/:orderId` (lines 137 to 148). -/
def getOrder (fired : Except JsError Json) : HttpResponse :=
  tryCatch do
    let order ← fired
    let error ← order.prop "error"
    if error.strictEqStr "Order not found" then pure ⟨404, order⟩ else pure ⟨200, order⟩

/-- Route `POST /orders` (lines 150 to 160). -/
def postOrder (fired : Except JsError Json) : HttpResponse :=
  tryCatch do
    let order ← fired
    pure ⟨201, order⟩

/-- Route `GET /orders` (lines 162 to 173). -/
def getOrders (fired : Except JsError Json) : HttpResponse :=
  tryCatch do
    let orders ← fired
    pure ⟨200, orders⟩

/-- Route `DELETE /orders/:orderId` (lines 175 to 184). -/
def deleteOrder (fired : Except JsError Json) : HttpResponse :=
  tryCatch do
    let result ← fired
    pure ⟨200, result⟩

/-- Route `PUT /orders/:orderId` (lines 186 to 196). -/
def putOrder (fired : Except JsError Json) : HttpResponse :=
  tryCatch do
    let order ← fired
    pure ⟨200, order⟩

/-- Route `POST /deliveries` (lines 200 to 210). -/
def postDelivery (fired : Except JsError Json) : HttpResponse :=
  tryCatch do
    let delivery ← fired
    pure ⟨201, delivery⟩

/-- Route `GET /deliveries/:id` (lines 212 to 223). -/
def getDelivery (fired : Except JsError Json) : HttpResponse :=
  tryCatch do
    let delivery ← fired
    let error ← delivery.prop "error"
    if error.truthy then pure ⟨404, delivery⟩ else pure ⟨200, delivery⟩

/-- Route `GET /deliveries` (lines 225 to 236). -/
def getDeliveries (fired : Except JsError Json) : HttpResponse :=
  tryCatch do
    let deliveries ← fired
    pure ⟨200, deliveries⟩

/-- Route `GET /deliveries/tracking/:trackingNumber` (lines 238 to 249). -/
def getDeliveryByTracking (fired : Except JsError Json) : HttpResponse :=
  tryCatch do
    let delivery ← fired
    let error ← delivery.prop "error"
    if error.truthy then pure ⟨404, delivery⟩ else pure ⟨200, delivery⟩

/-- Route `PUT /deliveries/:id` (lines 251 to 261). -/
def putDelivery (fired : Except JsError Json) : HttpResponse :=
  tryCatch do
    let delivery ← fired
    pure ⟨200, delivery⟩

/-- Route `DELETE /deliveries/:id` (lines 263 to 272). -/
def deleteDelivery (fired : Except JsError Json) : HttpResponse :=
  tryCatch do
    let result ← fired
    pure ⟨200, result⟩

/-- Route `GET /users/:userId/details` (lines 275 to 301); `userFired` and `ordersFired`
are the two settled calls that `Promise.all` joins. -/
def getUserDetails (userFired ordersFired : Except JsError Json) : HttpResponse :=
  tryCatch do
    let user ← userFired
    let userOrders ← ordersFired
    let error ← user.prop "error"
    if error.strictEqStr "User not found" then pure ⟨404, user⟩
    else pure ⟨200, .obj [("user", user), ("orders", userOrders)]⟩

end Gateway

/-! ## Inputs used as examples -/

namespace Examples

/-- A delivery that was delivered at time 1000. -/
def delivered7 : Delivery :=
  { id := 7, order_id := 3, address := "123 Main St", status := "delivered",
    tracking_number := "TRK10000042", estimated_delivery_date := some 900,
    actual_delivery_date := some 1000, createdAt := 100, updatedAt := 1000 }

/-- A delivery on its way, not delivered yet. -/
def pending7 : Delivery :=
  { id := 7, order_id := 3, address := "123 Main St", status := "pending",
    tracking_number := "TRK10000042", estimated_delivery_date := some 900,
    actual_delivery_date := none, createdAt := 100, updatedAt := 100 }

/-- The delivery service holding one row and an empty cache. -/
def deliveryState (d : Delivery) : ServiceState Delivery :=
  { db := { rows := [d], nextId := 8 }, cache := Redis.empty }

/-- The body `{ actual_delivery_date: d }` with `d` the date 5000. -/
def bodyActualDate : DeliveryService.UpdateBody :=
  { address := none, status := none, estimated_delivery_date := none,
    actual_delivery_date := some 5000 }

/-- A user. -/
def ann : User :=
  { id := 1, email := "ann@example.org", full_name := "Ann", createdAt := 100, updatedAt := 100 }

/-- The users service holding one user and an empty cache. -/
def usersState : ServiceState User :=
  { db := { rows := [ann], nextId := 2 }, cache := Redis.empty }

/-- The body of a `POST /users` that takes the email of an existing user. -/
def sameEmail : UsersService.Body := { email := some "ann@example.org", full_name := some "Bob" }

/-- An orders service with no order and an empty cache. -/
def noOrders : ServiceState Order :=
  { db := { rows := [], nextId := 1 }, cache := Redis.empty }

/-- The body `{ status: "paid" }` of a `PUT /orders/:orderId`. -/
def bodyPaid : OrdersService.UpdateBody :=
  { user_id := .undefined, product := none, amount := .undefined, status := some "paid" }

/-- A payload with the error text of a missing user and one more property. -/
def notFoundAndMore : Json := .obj [("error", .str "User not found"), ("code", .num 7)]

/-- A cache that holds, for delivery 7, the snapshot taken before it was delivered. -/
def staleCache : Redis :=
  Redis.empty.setEx (DeliveryService.getCacheKey 7) 300
    (JSON.stringify (DeliveryService.toJSON pending7))

/-- The body `{ user_id: 1, product: "book", delivery_address: "123 Main St" }` of a
`POST /orders`. -/
def bookOrder : OrdersService.CreateBody :=
  { user_id := some 1, product := some "book", amount := none, status := none,
    delivery_address := some "123 Main St" }

/-- A delivery service with no delivery and an empty cache. -/
def noDeliveries : ServiceState Delivery :=
  { db := { rows := [], nextId := 1 }, cache := Redis.empty }

/-- What the delivery service, holding no delivery, answers at time 2000 to the call
that `POST /orders` makes for order 1. -/
def deliveryCreated : AxiosOutcome :=
  AxiosOutcome.ofResponse
    (DeliveryService.postDelivery noDeliveries 2000 42
      { order_id := some 1, address := some "123 Main St", status := some "pending",
        estimated_delivery_date := none }).1

/-- The order that `POST /orders` with body `bookOrder` creates at time 2000 in a
table with no order. -/
def order1 : Order :=
  { id := 1, user_id := 1, product := "book", amount := some 0, status := "pending",
    createdAt := 2000, updatedAt := 2000 }

/-- The body `{ order_id: 1, address: "123 Main St" }` of a `POST /deliveries`. -/
def deliveryFor1 : DeliveryService.CreateBody :=
  { order_id := some 1, address := some "123 Main St", status := none,
    estimated_delivery_date := none }

/-- An order of user 2. -/
def order2 : Order :=
  { id := 2, user_id := 2, product := "lamp", amount := some 1500, status := "pending",
    createdAt := 3000, updatedAt := 3000 }

/-- The orders service holding an order of user 1 and an order of user 2. -/
def twoOrders : ServiceState Order :=
  { db := { rows := [order1, order2], nextId := 3 }, cache := Redis.empty }

end Examples

/-! # Theorems -/

/-! ## Tables -/

theorem Table.findByPk_pk {Row : Type} [Model Row] (t : Table Row) (id : Int) (r : Row)
    (h : t.findByPk id = some r) : Model.pk r = id := by
  have := List.find?_some h
  simpa using this

theorem Table.findByPk_update_same {Row : Type} [Model Row] (t : Table Row) (id : Int)
    (r r' : Row) (h : t.findByPk id = some r) (hpk : Model.pk r' = id) :
    (t.update r').findByPk id = some r' := by
  obtain ⟨rows, nextId⟩ := t
  simp only [Table.findByPk, Table.update] at *
  induction rows with
  | nil => simp at h
  | cons x xs ih =>
    rw [List.map_cons]
    by_cases hx : Model.pk x = id
    · have h1 : (Model.pk x == Model.pk r') = true := by simp [hx, hpk]
      rw [if_pos h1]
      exact List.find?_cons_of_pos _ (by simp [hpk])
    · have h1 : ¬ (Model.pk x == Model.pk r') = true := by simp [hx, hpk]
      rw [if_neg h1, List.find?_cons_of_neg _ (by simpa using hx)]
      rw [List.find?_cons_of_neg _ (by simpa using hx)] at h
      exact ih h

theorem Table.findByPk_update_other {Row : Type} [Model Row] (t : Table Row) (id : Int)
    (r' : Row) (hpk : Model.pk r' ≠ id) :
    (t.update r').findByPk id = t.findByPk id := by
  obtain ⟨rows, nextId⟩ := t
  simp only [Table.findByPk, Table.update]
  induction rows with
  | nil => simp
  | cons x xs ih =>
    rw [List.map_cons]
    by_cases hx : Model.pk x = Model.pk r'
    · have h1 : (Model.pk x == Model.pk r') = true := by simp [hx]
      have hx' : Model.pk x ≠ id := by rw [hx]; exact hpk
      rw [if_pos h1, List.find?_cons_of_neg _ (by simpa using hpk),
        List.find?_cons_of_neg _ (by simpa using hx'), ih]
    · have h1 : ¬ (Model.pk x == Model.pk r') = true := by simp [hx]
      rw [if_neg h1]
      by_cases hxi : Model.pk x = id
      · rw [List.find?_cons_of_pos _ (by simpa using hxi),
          List.find?_cons_of_pos _ (by simpa using hxi)]
      · rw [List.find?_cons_of_neg _ (by simpa using hxi),
          List.find?_cons_of_neg _ (by simpa using hxi), ih]

theorem Table.findByPk_destroy_same {Row : Type} [Model Row] (t : Table Row) (id : Int) :
    (t.destroy id).findByPk id = none := by
  obtain ⟨rows, nextId⟩ := t
  simp [Table.findByPk, Table.destroy, List.find?_eq_none]

theorem Table.findByPk_destroy_other {Row : Type} [Model Row] (t : Table Row) (id id' : Int)
    (h : id' ≠ id) : (t.destroy id).findByPk id' = t.findByPk id' := by
  obtain ⟨rows, nextId⟩ := t
  simp only [Table.findByPk, Table.destroy]
  induction rows with
  | nil => simp
  | cons x xs ih =>
    by_cases hx : Model.pk x = id
    · have hx' : Model.pk x ≠ id' := by rw [hx]; exact fun e => h e.symm
      rw [List.filter_cons_of_neg (by simpa using hx),
        List.find?_cons_of_neg _ (by simpa using hx'), ih]
    · rw [List.filter_cons_of_pos (by simpa using hx)]
      by_cases hxi : Model.pk x = id'
      · rw [List.find?_cons_of_pos _ (by simpa using hxi),
          List.find?_cons_of_pos _ (by simpa using hxi)]
      · rw [List.find?_cons_of_neg _ (by simpa using hxi),
          List.find?_cons_of_neg _ (by simpa using hxi), ih]

theorem Table.findByPk_insert_other {Row : Type} [Model Row] (t : Table Row) (id : Int)
    (r : Row) (hpk : Model.pk r ≠ id) : (t.insert r).findByPk id = t.findByPk id := by
  obtain ⟨rows, nextId⟩ := t
  simp only [Table.findByPk, Table.insert, List.find?_append]
  simp [hpk]

theorem Table.findByPk_insert_same {Row : Type} [Model Row] (t : Table Row) (r : Row)
    (h : t.findByPk (Model.pk r) = none) : (t.insert r).findByPk (Model.pk r) = some r := by
  obtain ⟨rows, nextId⟩ := t
  simp only [Table.findByPk, Table.insert, List.find?_append] at *
  rw [h]
  simp

/-! ## Cache keys -/

/-- A decimal digit is not the minus sign. -/
theorem digitChar_ne_minus (k : Nat) (h : k < 10) : Nat.digitChar k ≠ '-' := by
  interval_cases k <;> decide

/-- The code of a decimal digit, less 48, is the digit. -/
theorem digitChar_toNat (k : Nat) (h : k < 10) : (Nat.digitChar k).toNat - 48 = k := by
  interval_cases k <;> rfl

/-- The decimal digits of a number hold no minus sign. -/
theorem toDigitsCore_no_minus (fuel n : Nat) (ds : List Char) (h : ∀ c ∈ ds, c ≠ '-') :
    ∀ c ∈ Nat.toDigitsCore 10 fuel n ds, c ≠ '-' := by
  induction fuel generalizing n ds with
  | zero => simpa [Nat.toDigitsCore] using h
  | succ fuel ih =>
    have hd : ∀ c ∈ Nat.digitChar (n % 10) :: ds, c ≠ '-' := by
      intro c hc
      rcases List.mem_cons.1 hc with hc | hc
      · rw [hc]; exact digitChar_ne_minus _ (Nat.mod_lt _ (by decide))
      · exact h c hc
    simp only [Nat.toDigitsCore]
    split
    · exact hd
    · exact ih _ _ hd

/-- Reading the decimal digits of a number gives the number back. -/
theorem toDigitsCore_decode (fuel n : Nat) (ds : List Char) (h : n < fuel) :
    List.foldl (fun acc (c : Char) => acc * 10 + (c.toNat - 48)) 0 (Nat.toDigitsCore 10 fuel n ds)
      = List.foldl (fun acc (c : Char) => acc * 10 + (c.toNat - 48)) n ds := by
  induction fuel generalizing n ds with
  | zero => omega
  | succ fuel ih =>
    simp only [Nat.toDigitsCore]
    have hmod : n % 10 < 10 := Nat.mod_lt _ (by decide)
    split
    · rename_i h0
      simp only [List.foldl_cons, digitChar_toNat _ hmod]
      congr 1
      omega
    · rename_i h0
      rw [ih (n / 10) _ (by omega)]
      simp only [List.foldl_cons, digitChar_toNat _ hmod]
      congr 1
      omega

/-- Two natural numbers with the same decimal text are equal. -/
theorem Nat_repr_injective (a b : Nat) (h : Nat.repr a = Nat.repr b) : a = b := by
  have hd : Nat.toDigits 10 a = Nat.toDigits 10 b := by
    have := congrArg String.data h
    simpa [Nat.repr] using this
  have ha := toDigitsCore_decode (a + 1) a [] (by omega)
  have hb := toDigitsCore_decode (b + 1) b [] (by omega)
  simp only [List.foldl_nil] at ha hb
  unfold Nat.toDigits at hd
  rw [← ha, ← hb, hd]

/-- Two integers with the same decimal text are equal. -/
theorem Int_toString_injective (a b : Int) (h : toString a = toString b) : a = b := by
  cases a with
  | ofNat m =>
    cases b with
    | ofNat n =>
      have : Nat.repr m = Nat.repr n := h
      rw [Nat_repr_injective m n this]
    | negSucc n =>
      exfalso
      have h' : Nat.repr m = "-" ++ Nat.repr (n + 1) := h
      have := congrArg String.data h'
      simp only [Nat.repr, String.data_append, List.asString] at this
      have hm : '-' ∈ Nat.toDigits 10 m := by rw [this]; simp
      exact toDigitsCore_no_minus _ _ [] (by simp) _ hm rfl
  | negSucc m =>
    cases b with
    | ofNat n =>
      exfalso
      have h' : "-" ++ Nat.repr (m + 1) = Nat.repr n := h
      have := congrArg String.data h'
      simp only [Nat.repr, String.data_append, List.asString] at this
      have hm : '-' ∈ Nat.toDigits 10 n := by rw [← this]; simp
      exact toDigitsCore_no_minus _ _ [] (by simp) _ hm rfl
    | negSucc n =>
      have h' : "-" ++ Nat.repr (m + 1) = "-" ++ Nat.repr (n + 1) := h
      have := congrArg String.data h'
      simp only [String.data_append, List.append_cancel_left_eq] at this
      have h2 : Nat.repr (m + 1) = Nat.repr (n + 1) := String.ext this
      have h3 := Nat_repr_injective _ _ h2
      have h4 : m = n := by omega
      rw [h4]

/-- Cache keys made of one fixed text and the id are distinct for distinct ids. -/
theorem key_inj (p : String) (a b : Int) (h : p ++ toString a = p ++ toString b) : a = b := by
  have := congrArg String.data h
  simp only [String.data_append, List.append_cancel_left_eq] at this
  exact Int_toString_injective a b (String.ext this)

/-! ## Cache coherence -/

theorem Coherent.empty {Row : Type} [Model Row] (getCacheKey : Int → String) (db : Table Row) :
    Coherent getCacheKey ⟨db, Redis.empty⟩ := by
  intro id e h
  cases h

/-- A write that leaves the other rows as they are and deletes the key of the row it
touches keeps the cache coherent. -/
theorem Coherent.write {Row : Type} [Model Row] (getCacheKey : Int → String)
    (s : ServiceState Row) (db : Table Row) (id : Int) (hc : Coherent getCacheKey s)
    (hdb : ∀ id', id' ≠ id → db.findByPk id' = s.db.findByPk id') :
    Coherent getCacheKey ⟨db, s.cache.del (getCacheKey id)⟩ := by
  intro id' e h
  simp only [Redis.del] at h
  by_cases hk : getCacheKey id' = getCacheKey id
  · rw [if_pos hk] at h; cases h
  · rw [if_neg hk] at h
    have hne : id' ≠ id := fun e => hk (by rw [e])
    obtain ⟨row, hrow, hval⟩ := hc id' e h
    exact ⟨row, by rw [hdb id' hne]; exact hrow, hval⟩

/-- Storing the serialization of the row of an id under the key of that id keeps the
cache coherent. -/
theorem Coherent.fill {Row : Type} [Model Row] (getCacheKey : Int → String)
    (hinj : ∀ a b, getCacheKey a = getCacheKey b → a = b)
    (s : ServiceState Row) (id : Int) (row : Row) (ttl : Nat) (hc : Coherent getCacheKey s)
    (hrow : s.db.findByPk id = some row) :
    Coherent getCacheKey
      { s with cache := s.cache.setEx (getCacheKey id) ttl (JSON.stringify (Model.toJSON row)) }
      := by
  intro id' e h
  simp only [Redis.setEx] at h
  by_cases hk : getCacheKey id' = getCacheKey id
  · rw [if_pos hk] at h
    have hid : id' = id := hinj _ _ hk
    subst hid
    cases h
    exact ⟨row, hrow, rfl⟩
  · rw [if_neg hk] at h
    exact hc id' e h

theorem WriteOutcome.coherent {Row : Type} [Model Row] (getCacheKey : Int → String)
    (s : ServiceState Row) (id : Int) (result : HttpResponse × ServiceState Row)
    (h : WriteOutcome getCacheKey s id result) (hc : Coherent getCacheKey s) :
    Coherent getCacheKey result.2 := by
  rcases h with ⟨h, _⟩ | ⟨db, h, hdb⟩
  · rw [h]; exact hc
  · rw [h]; exact Coherent.write getCacheKey s db id hc hdb

theorem WriteOutcome.no_entry {Row : Type} [Model Row] (getCacheKey : Int → String)
    (s : ServiceState Row) (id : Int) (result : HttpResponse × ServiceState Row)
    (h : WriteOutcome getCacheKey s id result) (hs : result.1.success = true) :
    result.2.cache (getCacheKey id) = none := by
  rcases h with ⟨_, h⟩ | ⟨db, h, _⟩
  · rw [h] at hs; cases hs
  · rw [h]; simp [Redis.del]

/-! ## Delivery lifecycle -/

namespace DeliveryService

theorem delivery_applyUpdate_id (now : Date) (d : Delivery) (body : UpdateBody) :
    (applyUpdate now d body).id = d.id := by
  unfold applyUpdate
  simp only []
  repeat' split
  all_goals rfl

theorem applyUpdate_status (now : Date) (d : Delivery) (body : UpdateBody) :
    (applyUpdate now d body).status =
      match body.status with
      | some status => if status != "" then status else d.status
      | none => d.status := by
  unfold applyUpdate
  simp only []
  repeat' split
  all_goals rfl

theorem applyUpdate_actual_delivery_date (now : Date) (d : Delivery) (body : UpdateBody)
    (hbody : body.actual_delivery_date = none) :
    (applyUpdate now d body).actual_delivery_date =
      if body.status = some "delivered" ∧ d.actual_delivery_date = none then some now
      else d.actual_delivery_date := by
  unfold applyUpdate
  simp only [hbody]
  repeat' split
  all_goals first | rfl | simp_all

theorem applyUpdate_actual_of_body (now : Date) (d : Delivery) (body : UpdateBody)
    (date : Date) (hbody : body.actual_delivery_date = some date) :
    (applyUpdate now d body).actual_delivery_date = some date := by
  unfold applyUpdate
  simp only [hbody]

/-- What `PUT /deliveries/:id` does when the table holds the row `d`. -/
theorem putDelivery_eq (s : ServiceState Delivery) (now : Date) (deliveryId : Int)
    (body : UpdateBody) (d : Delivery) (h : s.db.findByPk deliveryId = some d) :
    putDelivery s now deliveryId body =
      if applyUpdate now d body = d then
        (⟨200, toJSON d⟩, ⟨s.db, s.cache.del (getCacheKey deliveryId)⟩)
      else if (applyUpdate now d body).status ≠ d.status ∧
          (applyUpdate now d body).status ∉ statusValues then
        (internalServerError, s)
      else
        (⟨200, toJSON { applyUpdate now d body with updatedAt := now }⟩,
          ⟨s.db.update { applyUpdate now d body with updatedAt := now },
            s.cache.del (getCacheKey deliveryId)⟩) := by
  unfold putDelivery save
  rw [h]
  by_cases he : applyUpdate now d body = d
  · simp only [he, if_true]
  · simp only [he, if_false]
    by_cases hr : (applyUpdate now d body).status ≠ d.status ∧
        (applyUpdate now d body).status ∉ statusValues
    · rw [if_pos hr, if_pos hr]
    · rw [if_neg hr, if_neg hr]

/-- A refused update leaves the state as it was and is answered 500. -/
theorem putDelivery_refused (s : ServiceState Delivery) (now : Date) (deliveryId : Int)
    (body : UpdateBody) (d : Delivery) (h : s.db.findByPk deliveryId = some d)
    (hr : (applyUpdate now d body).status ≠ d.status ∧
      (applyUpdate now d body).status ∉ statusValues) :
    putDelivery s now deliveryId body = (internalServerError, s) := by
  rw [putDelivery_eq s now deliveryId body d h]
  have he : applyUpdate now d body ≠ d := fun e => hr.1 (by rw [e])
  rw [if_neg he, if_pos hr]

/-- An update that is not refused is answered 200, and the row it leaves in the table
has the status and the `actual_delivery_date` that the assignments gave. -/
theorem putDelivery_accepted (s : ServiceState Delivery) (now : Date) (deliveryId : Int)
    (body : UpdateBody) (d : Delivery) (h : s.db.findByPk deliveryId = some d)
    (hr : ¬ ((applyUpdate now d body).status ≠ d.status ∧
      (applyUpdate now d body).status ∉ statusValues)) :
    (putDelivery s now deliveryId body).1.status = 200 ∧
    ∃ d', (putDelivery s now deliveryId body).2.db.findByPk deliveryId = some d' ∧
      d'.status = (applyUpdate now d body).status ∧
      d'.actual_delivery_date = (applyUpdate now d body).actual_delivery_date := by
  have hid : d.id = deliveryId := Table.findByPk_pk s.db deliveryId d h
  rw [putDelivery_eq s now deliveryId body d h]
  by_cases he : applyUpdate now d body = d
  · rw [if_pos he]
    refine ⟨rfl, d, h, ?_, ?_⟩ <;> rw [he]
  · rw [if_neg he, if_neg hr]
    refine ⟨rfl, { applyUpdate now d body with updatedAt := now }, ?_, rfl, rfl⟩
    apply Table.findByPk_update_same s.db deliveryId d _ h
    show (applyUpdate now d body).id = deliveryId
    rw [delivery_applyUpdate_id, hid]

/-- Route `PUT /deliveries/:id` leaves the rows of other deliveries as they are. -/
theorem putDelivery_findByPk_other (s : ServiceState Delivery) (now : Date)
    (deliveryId id : Int) (body : UpdateBody) (h : id ≠ deliveryId) :
    (putDelivery s now deliveryId body).2.db.findByPk id = s.db.findByPk id := by
  cases hf : s.db.findByPk deliveryId with
  | none =>
    unfold putDelivery
    rw [hf]
  | some d =>
    have hid : d.id = deliveryId := Table.findByPk_pk s.db deliveryId d hf
    rw [putDelivery_eq s now deliveryId body d hf]
    split
    · rfl
    · split
      · rfl
      · apply Table.findByPk_update_other
        show (applyUpdate now d body).id ≠ id
        rw [delivery_applyUpdate_id, hid]
        exact fun e => h e.symm

/-- A `PUT` whose body has no `actual_delivery_date` keeps a date that is set. -/
theorem putDelivery_keeps_actual (s : ServiceState Delivery) (now : Date) (deliveryId id : Int)
    (body : UpdateBody) (d : Delivery) (date : Date)
    (hbody : body.actual_delivery_date = none)
    (h : s.db.findByPk id = some d) (hd : d.actual_delivery_date = some date) :
    ∃ d', (putDelivery s now deliveryId body).2.db.findByPk id = some d' ∧
      d'.actual_delivery_date = some date := by
  by_cases hid : id = deliveryId
  · subst hid
    by_cases hr : (applyUpdate now d body).status ≠ d.status ∧
        (applyUpdate now d body).status ∉ statusValues
    · rw [putDelivery_refused s now id body d h hr]
      exact ⟨d, h, hd⟩
    · obtain ⟨_, d', hd', _, hact⟩ := putDelivery_accepted s now id body d h hr
      refine ⟨d', hd', ?_⟩
      rw [hact, applyUpdate_actual_delivery_date now d body hbody, hd]
      simp
  · rw [putDelivery_findByPk_other s now deliveryId id body hid]
    exact ⟨d, h, hd⟩

end DeliveryService

/-- Claim C5: for an existing delivery whose `actual_delivery_date` is unset,
`PUT /deliveries/:id` with body `{ status: "delivered" }` answers 200, stores status
`delivered` and sets `actual_delivery_date` to the time of the update; for a delivery
whose `actual_delivery_date` is set, `PUT` with body `{ status: "in_transit" }` leaves
that date as it is. -/
theorem C5_delivered_stamps_date (s : ServiceState Delivery) (now : Date) (id : Int)
    (d : Delivery) (h : s.db.findByPk id = some d) :
    (d.actual_delivery_date = none →
      (DeliveryService.putDelivery s now id (DeliveryService.statusOnly "delivered")).1.status
          = 200 ∧
      ∃ d', (DeliveryService.putDelivery s now id
          (DeliveryService.statusOnly "delivered")).2.db.findByPk id = some d' ∧
        d'.status = "delivered" ∧ d'.actual_delivery_date = some now) ∧
    (∀ date, d.actual_delivery_date = some date →
      ∃ d', (DeliveryService.putDelivery s now id
          (DeliveryService.statusOnly "in_transit")).2.db.findByPk id = some d' ∧
        d'.actual_delivery_date = some date) := by
  constructor
  · intro hnone
    have hact : (DeliveryService.applyUpdate now d
        (DeliveryService.statusOnly "delivered")).actual_delivery_date = some now := by
      rw [DeliveryService.applyUpdate_actual_delivery_date now d _ rfl]
      simp [DeliveryService.statusOnly, hnone]
    have hst : (DeliveryService.applyUpdate now d
        (DeliveryService.statusOnly "delivered")).status = "delivered" := by
      rw [DeliveryService.applyUpdate_status]
      simp [DeliveryService.statusOnly]
    have hr : ¬ ((DeliveryService.applyUpdate now d
        (DeliveryService.statusOnly "delivered")).status ≠ d.status ∧
        (DeliveryService.applyUpdate now d (DeliveryService.statusOnly "delivered")).status ∉
          DeliveryService.statusValues) := by
      rw [hst]
      intro hc
      exact hc.2 (by decide)
    obtain ⟨h200, d', hd', hs', ha'⟩ := DeliveryService.putDelivery_accepted s now id _ d h hr
    exact ⟨h200, d', hd', by rw [hs', hst], by rw [ha', hact]⟩
  · intro date hdate
    exact DeliveryService.putDelivery_keeps_actual s now id id
      (DeliveryService.statusOnly "in_transit") d date rfl h hdate

/-- Witness of C5: delivery 7, pending and not delivered yet, is updated at time 2000. -/
theorem C5_delivered_stamps_date_witness :
    (Examples.deliveryState Examples.pending7).db.findByPk 7 = some Examples.pending7 ∧
    Examples.pending7.actual_delivery_date = none ∧
    ∃ d', (DeliveryService.putDelivery (Examples.deliveryState Examples.pending7) 2000 7
        (DeliveryService.statusOnly "delivered")).2.db.findByPk 7 = some d' ∧
      d'.status = "delivered" ∧ d'.actual_delivery_date = some 2000 :=
  ⟨rfl, rfl, ((C5_delivered_stamps_date (Examples.deliveryState Examples.pending7) 2000 7
    Examples.pending7 rfl).1 rfl).2⟩

/-- Counterexample to C4: delivery 7 is stored with status `delivered`; after
`PUT /deliveries/7` with body `{ status: "in_transit" }` the answer is 200 and the
stored status is `in_transit`. -/
theorem C4_counterexample :
    ((Examples.deliveryState Examples.delivered7).db.findByPk 7).map (fun d => d.status)
      = some "delivered" ∧
    (DeliveryService.putDelivery (Examples.deliveryState Examples.delivered7) 2000 7
      (DeliveryService.statusOnly "in_transit")).1.status = 200 ∧
    ((DeliveryService.putDelivery (Examples.deliveryState Examples.delivered7) 2000 7
      (DeliveryService.statusOnly "in_transit")).2.db.findByPk 7).map (fun d => d.status)
      = some "in_transit" := by
  refine ⟨rfl, ?_, ?_⟩
  · decide
  · decide

/-- Claim C4, amended: for a delivery stored with status `delivered`, a
`PUT /deliveries/:id` whose body has no status, an empty status or status `delivered`
leaves the stored status `delivered`; a body with any status the validator accepts is
answered 200 and that status is stored, so `pending` or `in_transit` replaces
`delivered`. -/
theorem C4_status_after_delivered (s : ServiceState Delivery) (now : Date) (id : Int)
    (body : DeliveryService.UpdateBody) (d : Delivery)
    (h : s.db.findByPk id = some d) (hd : d.status = "delivered") :
    ((body.status = none ∨ body.status = some "" ∨ body.status = some "delivered") →
      ∃ d', (DeliveryService.putDelivery s now id body).2.db.findByPk id = some d' ∧
        d'.status = "delivered") ∧
    (∀ status, body.status = some status → status ∈ DeliveryService.statusValues →
      (DeliveryService.putDelivery s now id body).1.status = 200 ∧
      ∃ d', (DeliveryService.putDelivery s now id body).2.db.findByPk id = some d' ∧
        d'.status = status) := by
  have hst := DeliveryService.applyUpdate_status now d body
  constructor
  · intro hb
    have hst' : (DeliveryService.applyUpdate now d body).status = d.status := by
      rcases hb with hb | hb | hb <;> rw [hst, hb] <;> simp [hd]
    have hr : ¬ ((DeliveryService.applyUpdate now d body).status ≠ d.status ∧
        (DeliveryService.applyUpdate now d body).status ∉ DeliveryService.statusValues) :=
      fun hc => hc.1 hst'
    obtain ⟨_, d', hd', hs', _⟩ := DeliveryService.putDelivery_accepted s now id body d h hr
    exact ⟨d', hd', by rw [hs', hst', hd]⟩
  · intro status hb hmem
    have hne : status ≠ "" := by
      intro e
      rw [e] at hmem
      revert hmem
      decide
    have hst' : (DeliveryService.applyUpdate now d body).status = status := by
      rw [hst, hb]; simp [hne]
    have hr : ¬ ((DeliveryService.applyUpdate now d body).status ≠ d.status ∧
        (DeliveryService.applyUpdate now d body).status ∉ DeliveryService.statusValues) := by
      rw [hst']
      exact fun hc => hc.2 hmem
    obtain ⟨h200, d', hd', hs', _⟩ := DeliveryService.putDelivery_accepted s now id body d h hr
    exact ⟨h200, d', hd', by rw [hs', hst']⟩

/-- Witness of C4, amended: delivery 7, stored as `delivered`, receives
`{ status: "pending" }`. -/
theorem C4_status_after_delivered_witness :
    (Examples.deliveryState Examples.delivered7).db.findByPk 7 = some Examples.delivered7 ∧
    Examples.delivered7.status = "delivered" ∧
    ∃ d', (DeliveryService.putDelivery (Examples.deliveryState Examples.delivered7) 2000 7
        (DeliveryService.statusOnly "pending")).2.db.findByPk 7 = some d' ∧
      d'.status = "pending" :=
  ⟨rfl, rfl, ((C4_status_after_delivered (Examples.deliveryState Examples.delivered7) 2000 7
    (DeliveryService.statusOnly "pending") Examples.delivered7 rfl rfl).2 "pending" rfl
    (by decide)).2⟩

/-- Counterexample to C3: delivery 7 has `actual_delivery_date` 1000; after
`PUT /deliveries/7` with body `{ actual_delivery_date: 5000 }`, which names no status,
the stored `actual_delivery_date` is 5000. -/
theorem C3_counterexample :
    ((Examples.deliveryState Examples.delivered7).db.findByPk 7).map
      (fun d => d.actual_delivery_date) = some (some 1000) ∧
    ((DeliveryService.putDelivery (Examples.deliveryState Examples.delivered7) 2000 7
      Examples.bodyActualDate).2.db.findByPk 7).map (fun d => d.actual_delivery_date)
      = some (some 5000) := by
  refine ⟨rfl, ?_⟩
  decide

/-- Claim C3, amended: over every sequence of `PUT /deliveries/:id` requests whose bodies
carry no `actual_delivery_date`, a delivery whose `actual_delivery_date` is set keeps
that date; such a request sets an unset `actual_delivery_date`, to the time of the
update, exactly when its body asks for status `delivered`; and a request whose body
carries an `actual_delivery_date` and that is answered 200 stores that date, whether
or not a date was set. -/
theorem C3_actual_date_kept (s : ServiceState Delivery) (rs : List DeliveryService.Request)
    (hrs : ∀ r ∈ rs, ∃ now deliveryId body,
      r = DeliveryService.Request.putDelivery now deliveryId body ∧
      body.actual_delivery_date = none)
    (id : Int) (d : Delivery) (h : s.db.findByPk id = some d) :
    (∀ date, d.actual_delivery_date = some date →
      ∃ d', (DeliveryService.run s rs).db.findByPk id = some d' ∧
        d'.actual_delivery_date = some date) ∧
    (∀ now body, body.actual_delivery_date = none → d.actual_delivery_date = none →
      ∃ d', (DeliveryService.putDelivery s now id body).2.db.findByPk id = some d' ∧
        d'.actual_delivery_date =
          if body.status = some "delivered" then some now else none) ∧
    (∀ now body date, body.actual_delivery_date = some date →
      (DeliveryService.putDelivery s now id body).1.status = 200 →
      ∃ d', (DeliveryService.putDelivery s now id body).2.db.findByPk id = some d' ∧
        d'.actual_delivery_date = some date) := by
  refine ⟨?_, ?_, ?_⟩
  · intro date hdate
    induction rs generalizing s d with
    | nil => exact ⟨d, h, hdate⟩
    | cons r rest ih =>
      obtain ⟨now, deliveryId, body, hr, hbody⟩ := hrs r (List.mem_cons_self _ _)
      obtain ⟨d1, h1, hd1⟩ := DeliveryService.putDelivery_keeps_actual s now deliveryId id
        body d date hbody h hdate
      have hrest : ∀ r ∈ rest, ∃ now deliveryId body,
          r = DeliveryService.Request.putDelivery now deliveryId body ∧
          body.actual_delivery_date = none :=
        fun r hr => hrs r (List.mem_cons_of_mem _ hr)
      have := ih (DeliveryService.putDelivery s now deliveryId body).2 hrest d1 h1 hd1
      simpa [DeliveryService.run, DeliveryService.handle, hr] using this
  · intro now body hbody hnone
    have hact := DeliveryService.applyUpdate_actual_delivery_date now d body hbody
    simp only [hnone, and_true] at hact
    by_cases hr : (DeliveryService.applyUpdate now d body).status ≠ d.status ∧
        (DeliveryService.applyUpdate now d body).status ∉ DeliveryService.statusValues
    · rw [DeliveryService.putDelivery_refused s now id body d h hr]
      refine ⟨d, h, ?_⟩
      have hb : body.status ≠ some "delivered" := by
        intro hb
        apply hr.2
        have : (DeliveryService.applyUpdate now d body).status = "delivered" := by
          rw [DeliveryService.applyUpdate_status, hb]; simp
        rw [this]
        decide
      rw [hnone, if_neg hb]
    · obtain ⟨_, d', hd', _, ha'⟩ := DeliveryService.putDelivery_accepted s now id body d h hr
      exact ⟨d', hd', by rw [ha', hact]⟩
  · intro now body date hbody hs
    have ha := DeliveryService.applyUpdate_actual_of_body now d body date hbody
    by_cases hr : (DeliveryService.applyUpdate now d body).status ≠ d.status ∧
        (DeliveryService.applyUpdate now d body).status ∉ DeliveryService.statusValues
    · rw [DeliveryService.putDelivery_refused s now id body d h hr] at hs
      have h500 : (500 : Nat) = 200 := hs
      exact absurd h500 (by decide)
    · obtain ⟨_, d', hd', _, ha'⟩ := DeliveryService.putDelivery_accepted s now id body d h hr
      exact ⟨d', hd', by rw [ha', ha]⟩

/-- Witness of C3, amended: two updates of delivery 7 that name no date, the second
one taking it back to `in_transit`. -/
theorem C3_actual_date_kept_witness :
    ∃ d', (DeliveryService.run (Examples.deliveryState Examples.delivered7)
        [.putDelivery 2000 7 (DeliveryService.statusOnly "delivered"),
         .putDelivery 3000 7 (DeliveryService.statusOnly "in_transit")]).db.findByPk 7
        = some d' ∧
      d'.actual_delivery_date = some 1000 :=
  (C3_actual_date_kept (Examples.deliveryState Examples.delivered7)
    [.putDelivery 2000 7 (DeliveryService.statusOnly "delivered"),
     .putDelivery 3000 7 (DeliveryService.statusOnly "in_transit")]
    (by
      intro r hr
      simp only [List.mem_cons, List.mem_singleton, List.not_mem_nil, or_false] at hr
      rcases hr with hr | hr
      · exact ⟨2000, 7, DeliveryService.statusOnly "delivered", hr, rfl⟩
      · exact ⟨3000, 7, DeliveryService.statusOnly "in_transit", hr, rfl⟩)
    7 Examples.delivered7 rfl).1 1000 rfl

/-! ## Delivery service: the cache protocol -/

namespace DeliveryService

theorem delivery_getCacheKey_injective (a b : Int) (h : getCacheKey a = getCacheKey b) : a = b :=
  key_inj "delivery:" a b h

theorem putDelivery_outcome (s : ServiceState Delivery) (now : Date) (deliveryId : Int)
    (body : UpdateBody) :
    WriteOutcome getCacheKey s deliveryId (putDelivery s now deliveryId body) := by
  cases hf : s.db.findByPk deliveryId with
  | none =>
    unfold putDelivery
    rw [hf]
    exact Or.inl ⟨rfl, rfl⟩
  | some d =>
    have hid : d.id = deliveryId := Table.findByPk_pk s.db deliveryId d hf
    rw [putDelivery_eq s now deliveryId body d hf]
    split
    · exact Or.inr ⟨_, rfl, fun _ _ => rfl⟩
    · split
      · exact Or.inl ⟨rfl, rfl⟩
      · refine Or.inr ⟨_, rfl, fun id' hne => ?_⟩
        apply Table.findByPk_update_other
        show (applyUpdate now d body).id ≠ id'
        rw [delivery_applyUpdate_id, hid]
        exact fun e => hne e.symm

theorem deleteDelivery_outcome (s : ServiceState Delivery) (deliveryId : Int) :
    WriteOutcome getCacheKey s deliveryId (deleteDelivery s deliveryId) := by
  unfold deleteDelivery
  cases hf : s.db.findByPk deliveryId with
  | none => exact Or.inl ⟨rfl, rfl⟩
  | some d =>
    exact Or.inr ⟨_, rfl, fun id' hne => Table.findByPk_destroy_other s.db deliveryId id' hne⟩

theorem delivery_create_ok (db db' : Table Delivery) (now : Date) (order_id : Int)
    (address status tracking_number : String) (estimated : Option Date) (d : Delivery)
    (h : create db now order_id address status tracking_number estimated = .ok (d, db')) :
    d.id = db.nextId ∧ db' = db.insert d := by
  unfold create at h
  split at h
  · split at h
    · cases h
    · split at h
      · cases h
      · cases h
        exact ⟨rfl, rfl⟩
  · cases h

theorem delivery_outcome_of_create (s : ServiceState Delivery)
    (res : Except JsError (Delivery × Table Delivery)) :
    (∀ d db, res = .ok (d, db) → d.id = s.db.nextId ∧ db = s.db.insert d) →
    WriteOutcome getCacheKey s s.db.nextId
      (match res with
      | .error _ => (internalServerError, s)
      | .ok (newDelivery, db) =>
        (⟨201, toJSON newDelivery⟩,
          { db := db, cache := s.cache.del (getCacheKey newDelivery.id) })) := by
  intro hres
  cases res with
  | error e => exact Or.inl ⟨rfl, rfl⟩
  | ok p =>
    obtain ⟨d, db⟩ := p
    obtain ⟨hid, hdb⟩ := hres d db rfl
    refine Or.inr ⟨db, ?_, fun id' hne => ?_⟩
    · simp only [hid]
    · rw [hdb]
      apply Table.findByPk_insert_other
      show d.id ≠ id'
      rw [hid]
      exact fun e => hne e.symm

theorem postDelivery_outcome (s : ServiceState Delivery) (now : Date) (random : Nat)
    (body : CreateBody) :
    WriteOutcome getCacheKey s s.db.nextId (postDelivery s now random body) := by
  unfold postDelivery
  split
  · split
    · exact Or.inl ⟨rfl, rfl⟩
    · exact delivery_outcome_of_create s _ (fun d db h => delivery_create_ok _ _ _ _ _ _ _ _ _ h)
  · exact Or.inl ⟨rfl, rfl⟩

theorem getDeliveryById_coherent (s : ServiceState Delivery) (deliveryId : Int)
    (hc : Coherent getCacheKey s) : Coherent getCacheKey (getDeliveryById s deliveryId).2 := by
  unfold getDeliveryById
  simp only []
  split
  · split <;> exact hc
  · split
    · exact hc
    · rename_i d hd
      exact Coherent.fill getCacheKey delivery_getCacheKey_injective s deliveryId d CACHE_TTL hc hd

theorem delivery_handle_coherent (s : ServiceState Delivery) (r : Request)
    (hc : Coherent getCacheKey s) : Coherent getCacheKey (handle s r).2 := by
  cases r with
  | getDeliveries order_id => exact hc
  | postDelivery now random body =>
    exact WriteOutcome.coherent _ _ _ _ (postDelivery_outcome s now random body) hc
  | getDeliveryById deliveryId => exact getDeliveryById_coherent s deliveryId hc
  | getDeliveryByTracking trackingNumber =>
    show Coherent getCacheKey (getDeliveryByTracking s trackingNumber).2
    unfold getDeliveryByTracking
    split <;> exact hc
  | putDelivery now deliveryId body =>
    exact WriteOutcome.coherent _ _ _ _ (putDelivery_outcome s now deliveryId body) hc
  | deleteDelivery deliveryId =>
    exact WriteOutcome.coherent _ _ _ _ (deleteDelivery_outcome s deliveryId) hc

theorem delivery_run_coherent (s : ServiceState Delivery) (rs : List Request)
    (hc : Coherent getCacheKey s) : Coherent getCacheKey (run s rs) := by
  induction rs generalizing s with
  | nil => exact hc
  | cons r rest ih => exact ih _ (delivery_handle_coherent s r hc)

theorem delivery_writes_outcome (s : ServiceState Delivery) (r : Request) (id : Int)
    (h : writes s r = some id) : WriteOutcome getCacheKey s id (handle s r) := by
  cases r with
  | getDeliveries order_id => cases h
  | postDelivery now random body =>
    cases h; exact postDelivery_outcome s now random body
  | getDeliveryById deliveryId => cases h
  | getDeliveryByTracking trackingNumber => cases h
  | putDelivery now deliveryId body =>
    cases h; exact putDelivery_outcome s now _ body
  | deleteDelivery deliveryId =>
    cases h; exact deleteDelivery_outcome s _

/-- In a coherent state a lookup by id answers with the row of the table. -/
theorem getDeliveryById_fresh (s : ServiceState Delivery) (deliveryId : Int)
    (hc : Coherent getCacheKey s) :
    (getDeliveryById s deliveryId).1 =
      match s.db.findByPk deliveryId with
      | some row => ⟨200, toJSON row⟩
      | none => notFound := by
  unfold getDeliveryById
  simp only [Redis.get]
  cases he : s.cache (getCacheKey deliveryId) with
  | none =>
    simp only [Option.map_none']
    cases s.db.findByPk deliveryId <;> rfl
  | some e =>
    obtain ⟨row, hrow, hval⟩ := hc deliveryId e he
    simp only [Option.map_some', hval, hrow]
    rfl

end DeliveryService

/-! ## Orders service: the cache protocol -/

namespace OrdersService

theorem orders_getCacheKey_injective (a b : Int) (h : getCacheKey a = getCacheKey b) : a = b :=
  key_inj "order:" a b h

theorem orders_applyUpdate_id (order updated : Order) (body : UpdateBody)
    (h : applyUpdate order body = .ok updated) : updated.id = order.id := by
  unfold applyUpdate at h
  cases hu : body.user_id with
  | undefined =>
    simp only [hu, bind, Except.bind, pure, Except.pure] at h
    cases h
    repeat' split
    all_goals rfl
  | null =>
    simp only [hu, bind, Except.bind, throw, throwThe, MonadExceptOf.throw] at h
    cases h
  | val user_id =>
    simp only [hu, bind, Except.bind, pure, Except.pure] at h
    cases h
    repeat' split
    all_goals rfl

theorem putOrder_outcome (s : ServiceState Order) (now : Date) (orderId : Int)
    (body : UpdateBody) : WriteOutcome getCacheKey s orderId (putOrder s now orderId body) := by
  unfold putOrder
  cases hf : s.db.findByPk orderId with
  | none => exact Or.inl ⟨rfl, rfl⟩
  | some o =>
    have hid : o.id = orderId := Table.findByPk_pk s.db orderId o hf
    cases ha : applyUpdate o body with
    | error e =>
      simp only [ha]
      exact Or.inl ⟨rfl, rfl⟩
    | ok updated =>
      have hu := orders_applyUpdate_id o updated body ha
      simp only [ha, save]
      by_cases he : updated = o
      · simp only [he, if_true]
        exact Or.inr ⟨_, rfl, fun _ _ => rfl⟩
      · simp only [he, if_false]
        refine Or.inr ⟨_, rfl, fun id' hne => ?_⟩
        apply Table.findByPk_update_other
        show updated.id ≠ id'
        rw [hu, hid]
        exact fun e => hne e.symm

theorem deleteOrder_outcome (s : ServiceState Order) (orderId : Int) :
    WriteOutcome getCacheKey s orderId (deleteOrder s orderId) := by
  unfold deleteOrder
  cases hf : s.db.findByPk orderId with
  | none => exact Or.inl ⟨rfl, rfl⟩
  | some o =>
    exact Or.inr ⟨_, rfl, fun id' hne => Table.findByPk_destroy_other s.db orderId id' hne⟩

theorem orders_create_ok (db db' : Table Order) (now : Date) (user_id : Int) (product : String)
    (amount : Int) (status : String) (o : Order)
    (h : create db now user_id product amount status = .ok (o, db')) :
    o.id = db.nextId ∧ db' = db.insert o := by
  unfold create at h
  split at h
  · cases h
  · cases h
    exact ⟨rfl, rfl⟩

theorem attachDelivery_dataValues (created : Order) (delivery_address : Option String)
    (delivery : AxiosOutcome) :
    (attachDelivery created delivery_address delivery).dataValues = created := by
  unfold attachDelivery
  simp only []
  split
  · split <;> rfl
  · rfl

theorem orders_outcome_of_create (s : ServiceState Order) (delivery_address : Option String)
    (delivery : AxiosOutcome) (res : Except JsError (Order × Table Order)) :
    (∀ o db, res = .ok (o, db) → o.id = s.db.nextId ∧ db = s.db.insert o) →
    WriteOutcome getCacheKey s s.db.nextId
      (match res with
      | .error _ => (internalServerError, s)
      | .ok (created, db) =>
        (⟨201, (attachDelivery created delivery_address delivery).toJSON⟩,
          { db := db,
            cache := s.cache.del
              (getCacheKey (attachDelivery created delivery_address delivery).dataValues.id) }))
      := by
  intro hres
  cases res with
  | error e => exact Or.inl ⟨rfl, rfl⟩
  | ok p =>
    obtain ⟨o, db⟩ := p
    obtain ⟨hid, hdb⟩ := hres o db rfl
    refine Or.inr ⟨db, ?_, fun id' hne => ?_⟩
    · simp only [attachDelivery_dataValues, hid]
    · rw [hdb]
      apply Table.findByPk_insert_other
      show o.id ≠ id'
      rw [hid]
      exact fun e => hne e.symm

theorem postOrder_outcome (s : ServiceState Order) (now : Date) (delivery : AxiosOutcome)
    (body : CreateBody) :
    WriteOutcome getCacheKey s s.db.nextId (postOrder s now delivery body) := by
  unfold postOrder
  split
  · split
    · exact Or.inl ⟨rfl, rfl⟩
    · exact orders_outcome_of_create s _ _ _ (fun o db h => orders_create_ok _ _ _ _ _ _ _ _ h)
  · exact Or.inl ⟨rfl, rfl⟩

theorem getOrderById_coherent (s : ServiceState Order) (orderId : Int)
    (hc : Coherent getCacheKey s) : Coherent getCacheKey (getOrderById s orderId).2 := by
  unfold getOrderById
  simp only []
  split
  · split <;> exact hc
  · split
    · exact hc
    · rename_i o ho
      exact Coherent.fill getCacheKey orders_getCacheKey_injective s orderId o CACHE_TTL hc ho

theorem orders_handle_coherent (s : ServiceState Order) (r : Request)
    (hc : Coherent getCacheKey s) : Coherent getCacheKey (handle s r).2 := by
  cases r with
  | getOrders user_id => exact hc
  | postOrder now delivery body =>
    exact WriteOutcome.coherent _ _ _ _ (postOrder_outcome s now delivery body) hc
  | getOrderById orderId => exact getOrderById_coherent s orderId hc
  | putOrder now orderId body =>
    exact WriteOutcome.coherent _ _ _ _ (putOrder_outcome s now orderId body) hc
  | deleteOrder orderId =>
    exact WriteOutcome.coherent _ _ _ _ (deleteOrder_outcome s orderId) hc

theorem orders_run_coherent (s : ServiceState Order) (rs : List Request)
    (hc : Coherent getCacheKey s) : Coherent getCacheKey (run s rs) := by
  induction rs generalizing s with
  | nil => exact hc
  | cons r rest ih => exact ih _ (orders_handle_coherent s r hc)

theorem orders_writes_outcome (s : ServiceState Order) (r : Request) (id : Int)
    (h : writes s r = some id) : WriteOutcome getCacheKey s id (handle s r) := by
  cases r with
  | getOrders user_id => cases h
  | postOrder now delivery body =>
    cases h; exact postOrder_outcome s now delivery body
  | getOrderById orderId => cases h
  | putOrder now orderId body =>
    cases h; exact putOrder_outcome s now _ body
  | deleteOrder orderId =>
    cases h; exact deleteOrder_outcome s _

/-- In a coherent state a lookup by id answers with the row of the table. -/
theorem getOrderById_fresh (s : ServiceState Order) (orderId : Int)
    (hc : Coherent getCacheKey s) :
    (getOrderById s orderId).1 =
      match s.db.findByPk orderId with
      | some row => ⟨200, toJSON row⟩
      | none => notFound := by
  unfold getOrderById
  simp only [Redis.get]
  cases he : s.cache (getCacheKey orderId) with
  | none =>
    simp only [Option.map_none']
    cases s.db.findByPk orderId <;> rfl
  | some e =>
    obtain ⟨row, hrow, hval⟩ := hc orderId e he
    simp only [Option.map_some', hval, hrow]
    rfl

end OrdersService

/-! ## Users service: the cache protocol -/

namespace UsersService

theorem users_getCacheKey_injective (a b : Int) (h : getCacheKey a = getCacheKey b) : a = b :=
  key_inj "user:" a b h

theorem users_applyUpdate_id (user : User) (body : Body) : (applyUpdate user body).id = user.id := by
  unfold applyUpdate
  simp only []
  repeat' split
  all_goals rfl

theorem onError_not_success (error : JsError) : (onError error).success = false := by
  cases error <;> rfl

theorem putUser_outcome (isEmail : String → Bool) (s : ServiceState User) (now : Date)
    (userId : Int) (body : Body) :
    WriteOutcome getCacheKey s userId (putUser isEmail s now userId body) := by
  unfold putUser save
  cases hf : s.db.findByPk userId with
  | none => exact Or.inl ⟨rfl, rfl⟩
  | some u =>
    have hid : u.id = userId := Table.findByPk_pk s.db userId u hf
    by_cases he : applyUpdate u body = u
    · simp only [he, if_true]
      exact Or.inr ⟨_, rfl, fun _ _ => rfl⟩
    · simp only [he, if_false]
      by_cases hv : (applyUpdate u body).email ≠ u.email ∧
          isEmail (applyUpdate u body).email = false
      · rw [if_pos hv]
        exact Or.inl ⟨rfl, rfl⟩
      · rw [if_neg hv]
        by_cases hdup : (applyUpdate u body).email ≠ u.email ∧
            (s.db.rows.any fun (x : User) =>
              x.id != (applyUpdate u body).id && x.email == (applyUpdate u body).email) = true
        · rw [if_pos hdup]
          exact Or.inl ⟨rfl, rfl⟩
        · rw [if_neg hdup]
          refine Or.inr ⟨_, rfl, fun id' hne => ?_⟩
          apply Table.findByPk_update_other
          show (applyUpdate u body).id ≠ id'
          rw [users_applyUpdate_id, hid]
          exact fun e => hne e.symm

theorem deleteUser_outcome (s : ServiceState User) (userId : Int) :
    WriteOutcome getCacheKey s userId (deleteUser s userId) := by
  unfold deleteUser
  cases hf : s.db.findByPk userId with
  | none => exact Or.inl ⟨rfl, rfl⟩
  | some u =>
    exact Or.inr ⟨_, rfl, fun id' hne => Table.findByPk_destroy_other s.db userId id' hne⟩

theorem users_create_ok (isEmail : String → Bool) (db db' : Table User) (now : Date)
    (email full_name : String) (u : User)
    (h : create isEmail db now email full_name = .ok (u, db')) :
    u.id = db.nextId ∧ db' = db.insert u := by
  unfold create at h
  split at h
  · split at h
    · cases h
    · split at h
      · cases h
      · cases h
        exact ⟨rfl, rfl⟩
  · cases h

theorem users_outcome_of_create (s : ServiceState User) (res : Except JsError (User × Table User)) :
    (∀ u db, res = .ok (u, db) → u.id = s.db.nextId ∧ db = s.db.insert u) →
    WriteOutcome getCacheKey s s.db.nextId
      (match res with
      | .error error => (onError error, s)
      | .ok (newUser, db) =>
        (⟨201, toJSON newUser⟩, { db := db, cache := s.cache.del (getCacheKey newUser.id) }))
      := by
  intro hres
  cases res with
  | error e => exact Or.inl ⟨rfl, onError_not_success e⟩
  | ok p =>
    obtain ⟨u, db⟩ := p
    obtain ⟨hid, hdb⟩ := hres u db rfl
    refine Or.inr ⟨db, ?_, fun id' hne => ?_⟩
    · simp only [hid]
    · rw [hdb]
      apply Table.findByPk_insert_other
      show u.id ≠ id'
      rw [hid]
      exact fun e => hne e.symm

theorem postUser_outcome (isEmail : String → Bool) (s : ServiceState User) (now : Date)
    (body : Body) : WriteOutcome getCacheKey s s.db.nextId (postUser isEmail s now body) := by
  unfold postUser
  split
  · split
    · exact Or.inl ⟨rfl, rfl⟩
    · exact users_outcome_of_create s _ (fun u db h => users_create_ok _ _ _ _ _ _ _ h)
  · exact Or.inl ⟨rfl, rfl⟩

theorem getUserById_coherent (s : ServiceState User) (userId : Int)
    (hc : Coherent getCacheKey s) : Coherent getCacheKey (getUserById s userId).2 := by
  unfold getUserById
  simp only []
  split
  · split <;> exact hc
  · split
    · exact hc
    · rename_i u hu
      exact Coherent.fill getCacheKey users_getCacheKey_injective s userId u CACHE_TTL hc hu

theorem users_handle_coherent (isEmail : String → Bool) (s : ServiceState User) (r : Request)
    (hc : Coherent getCacheKey s) : Coherent getCacheKey (handle isEmail s r).2 := by
  cases r with
  | getUsers => exact hc
  | postUser now body =>
    exact WriteOutcome.coherent _ _ _ _ (postUser_outcome isEmail s now body) hc
  | getUserById userId => exact getUserById_coherent s userId hc
  | putUser now userId body =>
    exact WriteOutcome.coherent _ _ _ _ (putUser_outcome isEmail s now userId body) hc
  | deleteUser userId =>
    exact WriteOutcome.coherent _ _ _ _ (deleteUser_outcome s userId) hc

theorem users_run_coherent (isEmail : String → Bool) (s : ServiceState User) (rs : List Request)
    (hc : Coherent getCacheKey s) : Coherent getCacheKey (run isEmail s rs) := by
  induction rs generalizing s with
  | nil => exact hc
  | cons r rest ih => exact ih _ (users_handle_coherent isEmail s r hc)

theorem users_writes_outcome (isEmail : String → Bool) (s : ServiceState User) (r : Request)
    (id : Int) (h : writes s r = some id) :
    WriteOutcome getCacheKey s id (handle isEmail s r) := by
  cases r with
  | getUsers => cases h
  | postUser now body =>
    cases h; exact postUser_outcome isEmail s now body
  | getUserById userId => cases h
  | putUser now userId body =>
    cases h; exact putUser_outcome isEmail s now _ body
  | deleteUser userId =>
    cases h; exact deleteUser_outcome s _

/-- In a coherent state a lookup by id answers with the row of the table. -/
theorem getUserById_fresh (s : ServiceState User) (userId : Int)
    (hc : Coherent getCacheKey s) :
    (getUserById s userId).1 =
      match s.db.findByPk userId with
      | some row => ⟨200, toJSON row⟩
      | none => notFound := by
  unfold getUserById
  simp only [Redis.get]
  cases he : s.cache (getCacheKey userId) with
  | none =>
    simp only [Option.map_none']
    cases s.db.findByPk userId <;> rfl
  | some e =>
    obtain ⟨row, hrow, hval⟩ := hc userId e he
    simp only [Option.map_some', hval, hrow]
    rfl

end UsersService

/-! ## Claims on the cache protocol -/

/-- Claim C1: for every sequence of requests that a service (deliveries, orders or
users) handles one after another from an empty cache, an entry the cache holds under
the key of an id is the serialization of the row the table holds for that id; after a
create, update or delete of an id that is answered with a status from 200 to 299, the
cache holds no entry under the key of that id; and so a lookup by id answers with the
row of the table, or 404 when there is none. -/
theorem C1_cache_coherence :
    (∀ (db : Table Delivery) (rs : List DeliveryService.Request) (id : Int) (e : CacheEntry),
      (DeliveryService.run ⟨db, Redis.empty⟩ rs).cache (DeliveryService.getCacheKey id) = some e →
      ∃ row, (DeliveryService.run ⟨db, Redis.empty⟩ rs).db.findByPk id = some row ∧
        e.value = JSON.stringify (DeliveryService.toJSON row)) ∧
    (∀ (db : Table Order) (rs : List OrdersService.Request) (id : Int) (e : CacheEntry),
      (OrdersService.run ⟨db, Redis.empty⟩ rs).cache (OrdersService.getCacheKey id) = some e →
      ∃ row, (OrdersService.run ⟨db, Redis.empty⟩ rs).db.findByPk id = some row ∧
        e.value = JSON.stringify (OrdersService.toJSON row)) ∧
    (∀ (isEmail : String → Bool) (db : Table User) (rs : List UsersService.Request) (id : Int)
        (e : CacheEntry),
      (UsersService.run isEmail ⟨db, Redis.empty⟩ rs).cache (UsersService.getCacheKey id)
        = some e →
      ∃ row, (UsersService.run isEmail ⟨db, Redis.empty⟩ rs).db.findByPk id = some row ∧
        e.value = JSON.stringify (UsersService.toJSON row)) ∧
    (∀ (s : ServiceState Delivery) (r : DeliveryService.Request) (id : Int),
      DeliveryService.writes s r = some id → (DeliveryService.handle s r).1.success = true →
      (DeliveryService.handle s r).2.cache (DeliveryService.getCacheKey id) = none) ∧
    (∀ (s : ServiceState Order) (r : OrdersService.Request) (id : Int),
      OrdersService.writes s r = some id → (OrdersService.handle s r).1.success = true →
      (OrdersService.handle s r).2.cache (OrdersService.getCacheKey id) = none) ∧
    (∀ (isEmail : String → Bool) (s : ServiceState User) (r : UsersService.Request) (id : Int),
      UsersService.writes s r = some id → (UsersService.handle isEmail s r).1.success = true →
      (UsersService.handle isEmail s r).2.cache (UsersService.getCacheKey id) = none) ∧
    (∀ (db : Table Delivery) (rs : List DeliveryService.Request) (id : Int),
      (DeliveryService.getDeliveryById (DeliveryService.run ⟨db, Redis.empty⟩ rs) id).1 =
        match (DeliveryService.run ⟨db, Redis.empty⟩ rs).db.findByPk id with
        | some row => ⟨200, DeliveryService.toJSON row⟩
        | none => DeliveryService.notFound) ∧
    (∀ (db : Table Order) (rs : List OrdersService.Request) (id : Int),
      (OrdersService.getOrderById (OrdersService.run ⟨db, Redis.empty⟩ rs) id).1 =
        match (OrdersService.run ⟨db, Redis.empty⟩ rs).db.findByPk id with
        | some row => ⟨200, OrdersService.toJSON row⟩
        | none => OrdersService.notFound) ∧
    (∀ (isEmail : String → Bool) (db : Table User) (rs : List UsersService.Request) (id : Int),
      (UsersService.getUserById (UsersService.run isEmail ⟨db, Redis.empty⟩ rs) id).1 =
        match (UsersService.run isEmail ⟨db, Redis.empty⟩ rs).db.findByPk id with
        | some row => ⟨200, UsersService.toJSON row⟩
        | none => UsersService.notFound) := by
  refine ⟨?_, ?_, ?_, ?_, ?_, ?_, ?_, ?_, ?_⟩
  · intro db rs id e h
    exact DeliveryService.delivery_run_coherent _ rs (Coherent.empty _ db) id e h
  · intro db rs id e h
    exact OrdersService.orders_run_coherent _ rs (Coherent.empty _ db) id e h
  · intro isEmail db rs id e h
    exact UsersService.users_run_coherent isEmail _ rs (Coherent.empty _ db) id e h
  · intro s r id hw hs
    exact WriteOutcome.no_entry _ s id _ (DeliveryService.delivery_writes_outcome s r id hw) hs
  · intro s r id hw hs
    exact WriteOutcome.no_entry _ s id _ (OrdersService.orders_writes_outcome s r id hw) hs
  · intro isEmail s r id hw hs
    exact WriteOutcome.no_entry _ s id _ (UsersService.users_writes_outcome isEmail s r id hw) hs
  · intro db rs id
    exact DeliveryService.getDeliveryById_fresh _ id
      (DeliveryService.delivery_run_coherent _ rs (Coherent.empty _ db))
  · intro db rs id
    exact OrdersService.getOrderById_fresh _ id
      (OrdersService.orders_run_coherent _ rs (Coherent.empty _ db))
  · intro isEmail db rs id
    exact UsersService.getUserById_fresh _ id
      (UsersService.users_run_coherent isEmail _ rs (Coherent.empty _ db))

/-- Witness of C1: delivery 7 is read, which fills the cache, then updated; the update
is answered 200 and the cache holds no entry for delivery 7. -/
theorem C1_cache_coherence_witness :
    DeliveryService.writes
      (DeliveryService.run (Examples.deliveryState Examples.pending7) [.getDeliveryById 7])
      (.putDelivery 2000 7 (DeliveryService.statusOnly "delivered")) = some 7 ∧
    (DeliveryService.handle
      (DeliveryService.run (Examples.deliveryState Examples.pending7) [.getDeliveryById 7])
      (.putDelivery 2000 7 (DeliveryService.statusOnly "delivered"))).1.success = true ∧
    (DeliveryService.handle
      (DeliveryService.run (Examples.deliveryState Examples.pending7) [.getDeliveryById 7])
      (.putDelivery 2000 7 (DeliveryService.statusOnly "delivered"))).2.cache
        (DeliveryService.getCacheKey 7) = none :=
  ⟨rfl, by decide, C1_cache_coherence.2.2.2.1
    (DeliveryService.run (Examples.deliveryState Examples.pending7) [.getDeliveryById 7])
    (.putDelivery 2000 7 (DeliveryService.statusOnly "delivered")) 7 rfl (by decide)⟩

/-- Claim C2: the lookup by id of each service (`GET /deliveries/:id`,
`GET /orders/:orderId`, `GET /users/:userId`).  When the cache holds the serialization of
a snapshot under the key of the id, the answer is 200 with that snapshot and the state
is unchanged, whatever the table holds; when the cache holds no entry and the table
holds a row, the answer is 200 with the row and the cache then holds the serialized row
under that key with a time to live of 300 seconds; when neither holds anything, the
answer is 404 and the state is unchanged. -/
theorem C2_lookup_read_path :
    (∀ (db : Table Delivery) (cache : Redis) (id : Int),
      (∀ snapshot ttl,
        cache (DeliveryService.getCacheKey id) = some ⟨JSON.stringify snapshot, ttl⟩ →
        DeliveryService.getDeliveryById ⟨db, cache⟩ id = (⟨200, snapshot⟩, ⟨db, cache⟩)) ∧
      (∀ row, cache (DeliveryService.getCacheKey id) = none → db.findByPk id = some row →
        DeliveryService.getDeliveryById ⟨db, cache⟩ id =
          (⟨200, DeliveryService.toJSON row⟩,
            ⟨db, cache.setEx (DeliveryService.getCacheKey id) 300
              (JSON.stringify (DeliveryService.toJSON row))⟩) ∧
        (DeliveryService.getDeliveryById ⟨db, cache⟩ id).2.cache (DeliveryService.getCacheKey id) =
          some ⟨JSON.stringify (DeliveryService.toJSON row), 300⟩) ∧
      (cache (DeliveryService.getCacheKey id) = none → db.findByPk id = none →
        DeliveryService.getDeliveryById ⟨db, cache⟩ id =
          (⟨404, errorBody "Delivery not found"⟩, ⟨db, cache⟩))) ∧
    (∀ (db : Table Order) (cache : Redis) (id : Int),
      (∀ snapshot ttl,
        cache (OrdersService.getCacheKey id) = some ⟨JSON.stringify snapshot, ttl⟩ →
        OrdersService.getOrderById ⟨db, cache⟩ id = (⟨200, snapshot⟩, ⟨db, cache⟩)) ∧
      (∀ row, cache (OrdersService.getCacheKey id) = none → db.findByPk id = some row →
        OrdersService.getOrderById ⟨db, cache⟩ id =
          (⟨200, OrdersService.toJSON row⟩,
            ⟨db, cache.setEx (OrdersService.getCacheKey id) 300
              (JSON.stringify (OrdersService.toJSON row))⟩) ∧
        (OrdersService.getOrderById ⟨db, cache⟩ id).2.cache (OrdersService.getCacheKey id) =
          some ⟨JSON.stringify (OrdersService.toJSON row), 300⟩) ∧
      (cache (OrdersService.getCacheKey id) = none → db.findByPk id = none →
        OrdersService.getOrderById ⟨db, cache⟩ id =
          (⟨404, errorBody "Order not found"⟩, ⟨db, cache⟩))) ∧
    (∀ (db : Table User) (cache : Redis) (id : Int),
      (∀ snapshot ttl,
        cache (UsersService.getCacheKey id) = some ⟨JSON.stringify snapshot, ttl⟩ →
        UsersService.getUserById ⟨db, cache⟩ id = (⟨200, snapshot⟩, ⟨db, cache⟩)) ∧
      (∀ row, cache (UsersService.getCacheKey id) = none → db.findByPk id = some row →
        UsersService.getUserById ⟨db, cache⟩ id =
          (⟨200, UsersService.toJSON row⟩,
            ⟨db, cache.setEx (UsersService.getCacheKey id) 300
              (JSON.stringify (UsersService.toJSON row))⟩) ∧
        (UsersService.getUserById ⟨db, cache⟩ id).2.cache (UsersService.getCacheKey id) =
          some ⟨JSON.stringify (UsersService.toJSON row), 300⟩) ∧
      (cache (UsersService.getCacheKey id) = none → db.findByPk id = none →
        UsersService.getUserById ⟨db, cache⟩ id =
          (⟨404, errorBody "User not found"⟩, ⟨db, cache⟩))) := by
  refine ⟨?_, ?_, ?_⟩
  · intro db cache id
    refine ⟨?_, ?_, ?_⟩
    · intro snapshot ttl h
      simp [DeliveryService.getDeliveryById, Redis.get, h, JSON.stringify, JSON.parse, CachedText.truthy]
    · intro row h hrow
      have hr : DeliveryService.getDeliveryById ⟨db, cache⟩ id =
          (⟨200, DeliveryService.toJSON row⟩,
            ⟨db, cache.setEx (DeliveryService.getCacheKey id) 300
              (JSON.stringify (DeliveryService.toJSON row))⟩) := by
        simp [DeliveryService.getDeliveryById, Redis.get, h, hrow, DeliveryService.CACHE_TTL]
      refine ⟨hr, ?_⟩
      rw [hr]
      simp [Redis.setEx]
    · intro h hrow
      simp [DeliveryService.getDeliveryById, Redis.get, h, hrow, DeliveryService.notFound]
  · intro db cache id
    refine ⟨?_, ?_, ?_⟩
    · intro snapshot ttl h
      simp [OrdersService.getOrderById, Redis.get, h, JSON.stringify, JSON.parse, CachedText.truthy]
    · intro row h hrow
      have hr : OrdersService.getOrderById ⟨db, cache⟩ id =
          (⟨200, OrdersService.toJSON row⟩,
            ⟨db, cache.setEx (OrdersService.getCacheKey id) 300
              (JSON.stringify (OrdersService.toJSON row))⟩) := by
        simp [OrdersService.getOrderById, Redis.get, h, hrow, OrdersService.CACHE_TTL]
      refine ⟨hr, ?_⟩
      rw [hr]
      simp [Redis.setEx]
    · intro h hrow
      simp [OrdersService.getOrderById, Redis.get, h, hrow, OrdersService.notFound]
  · intro db cache id
    refine ⟨?_, ?_, ?_⟩
    · intro snapshot ttl h
      simp [UsersService.getUserById, Redis.get, h, JSON.stringify, JSON.parse, CachedText.truthy]
    · intro row h hrow
      have hr : UsersService.getUserById ⟨db, cache⟩ id =
          (⟨200, UsersService.toJSON row⟩,
            ⟨db, cache.setEx (UsersService.getCacheKey id) 300
              (JSON.stringify (UsersService.toJSON row))⟩) := by
        simp [UsersService.getUserById, Redis.get, h, hrow, UsersService.CACHE_TTL]
      refine ⟨hr, ?_⟩
      rw [hr]
      simp [Redis.setEx]
    · intro h hrow
      simp [UsersService.getUserById, Redis.get, h, hrow, UsersService.notFound]

/-- Witness of C2: the cache holds the snapshot of delivery 7 taken before it was
delivered and the table holds the delivered row; the lookup answers with the snapshot. -/
theorem C2_lookup_read_path_witness :
    Examples.staleCache (DeliveryService.getCacheKey 7) =
      some ⟨JSON.stringify (DeliveryService.toJSON Examples.pending7), 300⟩ ∧
    DeliveryService.getDeliveryById
      ⟨(Examples.deliveryState Examples.delivered7).db, Examples.staleCache⟩ 7 =
      (⟨200, DeliveryService.toJSON Examples.pending7⟩,
        ⟨(Examples.deliveryState Examples.delivered7).db, Examples.staleCache⟩) :=
  ⟨rfl, (C2_lookup_read_path.1 (Examples.deliveryState Examples.delivered7).db
    Examples.staleCache 7).1 (DeliveryService.toJSON Examples.pending7) 300 rfl⟩

/-! ## Claims on the gateway -/

/-- Claim C6: the operation of each breaker returns the parsed body on a status from 200
to 299, returns the parsed error body on status 404, and throws on every other outcome
(another status, no response); a call through a breaker that is answered 404 settles
with that body and adds no failure to the count, while a thrown error adds one to the
count of a closed breaker. -/
theorem C6_operation_outcomes :
    (∀ status data, 200 ≤ status → status < 300 →
      Gateway.operation (.response status data) = .ok data) ∧
    (∀ data, Gateway.operation (.response 404 data) = .ok data) ∧
    (∀ status data, ¬ (200 ≤ status ∧ status < 300) → status ≠ 404 →
      Gateway.operation (.response status data) = .error (.axiosError (some ⟨status, data⟩))) ∧
    Gateway.operation .noResponse = .error (.axiosError none) ∧
    (∀ (c : CircuitState) (fallback : Option Json) (now : Nat) (data : Json),
      (c.fire Gateway.circuitOptions fallback now
          (Gateway.operation (.response 404 data))).circuit.failureCount ≤ c.failureCount ∧
      (c.state = .closed →
        (c.fire Gateway.circuitOptions fallback now
          (Gateway.operation (.response 404 data))).payload = .ok data ∧
        (c.fire Gateway.circuitOptions fallback now
          (Gateway.operation (.response 404 data))).circuit.state = .closed)) ∧
    (∀ (c : CircuitState) (fallback : Option Json) (now : Nat) (error : JsError),
      c.state = .closed →
        (c.fire Gateway.circuitOptions fallback now (.error error)).circuit.failureCount
          = c.failureCount + 1) := by
  refine ⟨?_, ?_, ?_, rfl, ?_, ?_⟩
  · intro status data h1 h2
    simp [Gateway.operation, axios, Gateway.validateStatus, h1, h2]
  · intro data
    rfl
  · intro status data h1 h2
    have hv : Gateway.validateStatus status = false := by
      simp only [Gateway.validateStatus, Bool.or_eq_false_iff, Bool.and_eq_false_iff,
        decide_eq_false_iff_not, beq_eq_false_iff_ne, ne_eq]
      constructor
      · by_cases h : 200 ≤ status
        · right; intro h3; exact h1 ⟨h, h3⟩
        · left; simpa using h
      · exact h2
    simp [Gateway.operation, axios, hv, h2]
  · intro c fallback now data
    have hop : Gateway.operation (.response 404 data) = .ok data := rfl
    rw [hop]
    obtain ⟨st, f, r, o⟩ := c
    constructor
    · cases st <;> simp only [CircuitState.fire] <;> split <;> simp_all
    · intro hc
      simp only at hc
      subst hc
      simp [CircuitState.fire]
  · intro c fallback now error hc
    obtain ⟨st, f, r, o⟩ := c
    simp only at hc
    subst hc
    simp only [CircuitState.fire]
    split <;> simp_all
    split <;> rfl

/-- Witness of C6: a response with status 201 and one with status 503. -/
theorem C6_operation_outcomes_witness :
    Gateway.operation (.response 201 (.str "created")) = .ok (.str "created") ∧
    Gateway.operation (.response 503 .null) = .error (.axiosError (some ⟨503, .null⟩)) :=
  ⟨C6_operation_outcomes.1 201 (.str "created") (by decide) (by decide),
    C6_operation_outcomes.2.2.1 503 .null (by decide) (by decide)⟩

/-- Counterexample to C7: the user payload `null` is not the payload of a missing user
and the answer is 500, not 200; the payload `{ error: "User not found", code: 7 }` is
not that payload either and the answer is 404 with it, not 200 with user and orders. -/
theorem C7_counterexample :
    Gateway.getUserDetails (.ok .null) (.ok (.arr [])) = internalServerError ∧
    Gateway.getUserDetails (.ok Examples.notFoundAndMore) (.ok (.arr []))
      = ⟨404, Examples.notFoundAndMore⟩ :=
  ⟨rfl, rfl⟩

/-- Claim C7, amended: `GET /users/:userId/details` with the payloads `user` and
`orders` of the two lookups.  When the property `error` of `user` is the text
`User not found`, as in the payload `{ error: "User not found" }`, the answer is 404 with
`user` as its body, which holds no orders; when `user` is any other payload than
`null`, the answer is 200 with body `{ user, orders }`, as it is for a user row and for
the fallback of the users breaker; when `user` is `null`, the answer is 500. -/
theorem C7_details_aggregation (user orders : Json) :
    (∀ error, user.prop "error" = .ok error → error.strictEqStr "User not found" = true →
      Gateway.getUserDetails (.ok user) (.ok orders) = ⟨404, user⟩) ∧
    Gateway.getUserDetails (.ok (errorBody "User not found")) (.ok orders)
      = ⟨404, errorBody "User not found"⟩ ∧
    (∀ error, user.prop "error" = .ok error → error.strictEqStr "User not found" = false →
      Gateway.getUserDetails (.ok user) (.ok orders)
        = ⟨200, .obj [("user", user), ("orders", orders)]⟩) ∧
    (user = .null → Gateway.getUserDetails (.ok user) (.ok orders) = internalServerError) ∧
    (user ≠ .null → ∃ error, user.prop "error" = .ok error) ∧
    (∀ row : User, Gateway.getUserDetails (.ok (UsersService.toJSON row)) (.ok orders)
      = ⟨200, .obj [("user", UsersService.toJSON row), ("orders", orders)]⟩) ∧
    Gateway.getUserDetails (.ok Gateway.usersFallback) (.ok orders)
      = ⟨200, .obj [("user", Gateway.usersFallback), ("orders", orders)]⟩ := by
  refine ⟨?_, rfl, ?_, ?_, ?_, fun _ => rfl, rfl⟩
  · intro error hp he
    simp [Gateway.getUserDetails, Gateway.tryCatch, bind, Except.bind, hp, he, pure,
      Except.pure]
  · intro error hp he
    simp [Gateway.getUserDetails, Gateway.tryCatch, bind, Except.bind, hp, he, pure,
      Except.pure]
  · intro h
    rw [h]
    rfl
  · intro h
    cases user with
    | null => exact absurd rfl h
    | obj fields =>
      simp only [Json.prop]
      cases fields.lookup "error" <;> exact ⟨_, rfl⟩
    | bool b => exact ⟨_, rfl⟩
    | num n => exact ⟨_, rfl⟩
    | str t => exact ⟨_, rfl⟩
    | arr xs => exact ⟨_, rfl⟩

/-- Witness of C7, amended: the fallback of the users breaker as the user payload. -/
theorem C7_details_aggregation_witness :
    Gateway.getUserDetails (.ok Gateway.usersFallback) (.ok (.arr []))
      = ⟨200, .obj [("user", Gateway.usersFallback), ("orders", .arr [])]⟩ :=
  (C7_details_aggregation Gateway.usersFallback (.arr [])).2.2.1
    (.val (.str "Users service temporarily unavailable")) rfl (by decide)

/-- Claim C8, at the failing requests: the lookups `GET /users/:userId` and
`GET /orders/:orderId` answer 404 to the payload of a missing entity, but `PUT` and
`DELETE` on the three entities answer 200 with that payload as body; so does a
`PUT /orders/999` that the orders service, holding no order, answered with 404.  These
six routes answer 200 to every payload. -/
theorem C8_not_found_on_put_and_delete :
    (Gateway.getUser (.ok (errorBody "User not found"))).status = 404 ∧
    (Gateway.getOrder (.ok (errorBody "Order not found"))).status = 404 ∧
    (Gateway.getDelivery (.ok (errorBody "Delivery not found"))).status = 404 ∧
    Gateway.putUser (.ok (errorBody "User not found")) = ⟨200, errorBody "User not found"⟩ ∧
    Gateway.deleteUser (.ok (errorBody "User not found")) = ⟨200, errorBody "User not found"⟩ ∧
    Gateway.putOrder (.ok (errorBody "Order not found")) = ⟨200, errorBody "Order not found"⟩ ∧
    Gateway.deleteOrder (.ok (errorBody "Order not found"))
      = ⟨200, errorBody "Order not found"⟩ ∧
    Gateway.putDelivery (.ok (errorBody "Delivery not found"))
      = ⟨200, errorBody "Delivery not found"⟩ ∧
    Gateway.deleteDelivery (.ok (errorBody "Delivery not found"))
      = ⟨200, errorBody "Delivery not found"⟩ ∧
    (OrdersService.putOrder Examples.noOrders 2000 999 Examples.bodyPaid).1
      = ⟨404, errorBody "Order not found"⟩ ∧
    Gateway.putOrder (Gateway.ordersCircuit CircuitState.initial 2000
        (AxiosOutcome.ofResponse
          (OrdersService.putOrder Examples.noOrders 2000 999 Examples.bodyPaid).1)).payload
      = ⟨200, errorBody "Order not found"⟩ ∧
    (∀ payload : Json,
      Gateway.putUser (.ok payload) = ⟨200, payload⟩ ∧
      Gateway.deleteUser (.ok payload) = ⟨200, payload⟩ ∧
      Gateway.putOrder (.ok payload) = ⟨200, payload⟩ ∧
      Gateway.deleteOrder (.ok payload) = ⟨200, payload⟩ ∧
      Gateway.putDelivery (.ok payload) = ⟨200, payload⟩ ∧
      Gateway.deleteDelivery (.ok payload) = ⟨200, payload⟩) :=
  ⟨rfl, rfl, rfl, rfl, rfl, rfl, rfl, rfl, rfl, rfl, rfl,
    fun _ => ⟨rfl, rfl, rfl, rfl, rfl, rfl⟩⟩

/-- Claim C9, at the failing requests: `GET /deliveries/:id` and
`GET /deliveries/tracking/:trackingNumber` answer the fallback payload
`{ error: "Delivery service temporarily unavailable" }` with status 404; whatever the
state of the deliveries breaker, a call that gets no response settles with that
payload; the sibling route `GET /orders/:orderId` answers the fallback of its breaker
with status 200. -/
theorem C9_fallback_answered_404 (c : CircuitState) (now : Nat) :
    Gateway.getDelivery (.ok (errorBody "Delivery service temporarily unavailable"))
      = ⟨404, errorBody "Delivery service temporarily unavailable"⟩ ∧
    Gateway.getDeliveryByTracking (.ok (errorBody "Delivery service temporarily unavailable"))
      = ⟨404, errorBody "Delivery service temporarily unavailable"⟩ ∧
    (Gateway.deliveryCircuit c now .noResponse).payload = .ok Gateway.deliveryFallback ∧
    Gateway.getDelivery (Gateway.deliveryCircuit c now .noResponse).payload
      = ⟨404, Gateway.deliveryFallback⟩ ∧
    Gateway.getDeliveryByTracking (Gateway.deliveryCircuit c now .noResponse).payload
      = ⟨404, Gateway.deliveryFallback⟩ ∧
    Gateway.getOrder (Gateway.ordersCircuit c now .noResponse).payload
      = ⟨200, Gateway.ordersFallback⟩ := by
  have hd : (Gateway.deliveryCircuit c now .noResponse).payload
      = .ok Gateway.deliveryFallback := by
    obtain ⟨st, f, r, o⟩ := c
    simp only [Gateway.deliveryCircuit, CircuitState.fire, Gateway.operation, axios]
    repeat' split
    all_goals rfl
  have ho : (Gateway.ordersCircuit c now .noResponse).payload
      = .ok Gateway.ordersFallback := by
    obtain ⟨st, f, r, o⟩ := c
    simp only [Gateway.ordersCircuit, CircuitState.fire, Gateway.operation, axios]
    repeat' split
    all_goals rfl
  rw [hd, ho]
  exact ⟨rfl, rfl, rfl, rfl, rfl, rfl⟩

/-- Claim C10, at the failing request: the route `POST /users` of the gateway answers
201 to every payload the call settles with, and 500 when the call is rejected, never
400.  The users service, which holds a user with the email of the request, answers
`POST /users` with status 400; whatever the state of the users breaker, the call settles
with the fallback payload and the gateway answers 201 with that payload as body. -/
theorem C10_duplicate_email_answered_201 (c : CircuitState) (now : Nat) :
    (∀ fired, (Gateway.postUser fired).status = 201 ∨ (Gateway.postUser fired).status = 500) ∧
    (∀ payload, Gateway.postUser (.ok payload) = ⟨201, payload⟩) ∧
    (UsersService.postUser (fun _ => true) Examples.usersState 2000 Examples.sameEmail).1
      = ⟨400, errorBody "Email already exists"⟩ ∧
    Gateway.postUser (Gateway.usersCircuit c now
        (AxiosOutcome.ofResponse (UsersService.postUser (fun _ => true) Examples.usersState
          2000 Examples.sameEmail).1)).payload
      = ⟨201, errorBody "Users service temporarily unavailable"⟩ := by
  have h1 : (UsersService.postUser (fun _ => true) Examples.usersState 2000
      Examples.sameEmail).1 = ⟨400, errorBody "Email already exists"⟩ := by
    simp [UsersService.postUser, Examples.sameEmail, UsersService.create, Examples.usersState,
      Examples.ann, UsersService.onError, UsersService.emailExists]
  refine ⟨?_, fun _ => rfl, h1, ?_⟩
  · intro fired
    cases fired with
    | error e => exact Or.inr rfl
    | ok payload => exact Or.inl rfl
  rw [h1]
  have hp : (Gateway.usersCircuit c now
      (AxiosOutcome.ofResponse ⟨400, errorBody "Email already exists"⟩)).payload
      = .ok Gateway.usersFallback := by
    obtain ⟨st, f, r, o⟩ := c
    have hop : Gateway.operation (AxiosOutcome.ofResponse ⟨400, errorBody "Email already exists"⟩)
        = .error (.axiosError (some ⟨400, errorBody "Email already exists"⟩)) := rfl
    simp only [Gateway.usersCircuit, hop, CircuitState.fire]
    repeat' split
    all_goals rfl
  rw [hp]
  rfl

/-! ## The breaker -/

/-- What a failed call does to a closed breaker. -/
theorem CircuitState.fire_closed_error (options : CircuitOptions) (fallback : Option Json)
    (c : CircuitState) (now : Nat) (error : JsError) (hc : c.state = .closed) :
    c.fire options fallback now (.error error) =
      if (c.failureCount + 1) * 100 ≥ options.errorThresholdPercentage * (c.requestCount + 1)
      then
        ⟨match fallback with
          | some value => .ok value
          | none => .error error,
          ⟨.opened, c.failureCount + 1, c.requestCount + 1, now⟩, true⟩
      else
        ⟨match fallback with
          | some value => .ok value
          | none => .error error,
          ⟨.closed, c.failureCount + 1, c.requestCount + 1, c.openedAt⟩, true⟩ := by
  obtain ⟨st, f, r, o⟩ := c
  simp only at hc
  subst hc
  simp only [CircuitState.fire]
  split <;> simp_all

/-- What a call does to an open breaker before `resetTimeout` has elapsed. -/
theorem CircuitState.fire_opened_wait (options : CircuitOptions) (fallback : Option Json)
    (c : CircuitState) (now : Nat) (operation : Except JsError Json)
    (hc : c.state = .opened) (hnow : now < c.openedAt + options.resetTimeout) :
    c.fire options fallback now operation =
      ⟨match fallback with
        | some value => .ok value
        | none => .error .openCircuit,
        c, false⟩ := by
  obtain ⟨st, f, r, o⟩ := c
  simp only at hc hnow
  subst hc
  have hn : ¬ (now ≥ o + options.resetTimeout) := by omega
  simp only [CircuitState.fire, hn, and_false, if_false]

/-! ## Claims on validation failures and on order creation -/

/-- Counterexample to C11: on a response with status 400 the operation throws, and a
breaker before its first call counts one failure and opens. -/
theorem C11_counterexample :
    Gateway.operation (.response 400 (errorBody "Email already exists"))
      = .error (.axiosError (some ⟨400, errorBody "Email already exists"⟩)) ∧
    (Gateway.usersCircuit CircuitState.initial 1000
      (.response 400 (errorBody "Email already exists"))).circuit.failureCount = 1 ∧
    (Gateway.usersCircuit CircuitState.initial 1000
      (.response 400 (errorBody "Email already exists"))).circuit.state = .opened :=
  ⟨rfl, rfl, rfl⟩

/-- Claim C11, amended: on every response with status 400 the operation of a breaker
throws the axios error that carries the response; a closed breaker executes the call
and counts it as a failure, and opens when the failure rate has reached the threshold
of 50 percent.  Of the statuses outside 200 to 299 only 404 is exempt. -/
theorem C11_validation_failure_counted (data : Json) (c : CircuitState) (fallback : Option Json)
    (now : Nat) (hc : c.state = .closed) :
    Gateway.operation (.response 400 data) = .error (.axiosError (some ⟨400, data⟩)) ∧
    (c.fire Gateway.circuitOptions fallback now
      (Gateway.operation (.response 400 data))).executed = true ∧
    (c.fire Gateway.circuitOptions fallback now
      (Gateway.operation (.response 400 data))).circuit.failureCount = c.failureCount + 1 ∧
    (50 * (c.requestCount + 1) ≤ (c.failureCount + 1) * 100 →
      (c.fire Gateway.circuitOptions fallback now
        (Gateway.operation (.response 400 data))).circuit.state = .opened) := by
  have hop : Gateway.operation (.response 400 data)
      = .error (.axiosError (some ⟨400, data⟩)) := rfl
  rw [hop, CircuitState.fire_closed_error _ _ _ _ _ hc]
  refine ⟨rfl, ?_, ?_, ?_⟩
  · split <;> rfl
  · split <;> rfl
  · intro hrate
    have h50 : (c.failureCount + 1) * 100 ≥
        Gateway.circuitOptions.errorThresholdPercentage * (c.requestCount + 1) := hrate
    rw [if_pos h50]

/-- Witness of C11, amended: a closed breaker with nine answered calls and no failure
receives a response with status 400. -/
theorem C11_validation_failure_counted_witness :
    (CircuitState.fire Gateway.circuitOptions (some Gateway.usersFallback) ⟨.closed, 0, 9, 0⟩ 1000
      (Gateway.operation (.response 400 .null))).circuit.failureCount = 1 :=
  (C11_validation_failure_counted .null ⟨.closed, 0, 9, 0⟩ (some Gateway.usersFallback) 1000
    rfl).2.2.1

/-- The JSON rendering of an order has no property `delivery_info`. -/
theorem OrdersService.toJSON_no_delivery_info (o : Order) :
    (OrdersService.toJSON o).prop "delivery_info" = .ok .undefined := by
  rfl

theorem OrdersService.created_no_delivery_info (s : ServiceState Order)
    (delivery_address : Option String) (delivery : AxiosOutcome)
    (res : Except JsError (Order × Table Order)) :
    (match res with
      | .error _ => (internalServerError, s)
      | .ok (created, db) =>
        (⟨201, (OrdersService.attachDelivery created delivery_address delivery).toJSON⟩,
          { db := db,
            cache := s.cache.del (OrdersService.getCacheKey
              (OrdersService.attachDelivery created delivery_address
                delivery).dataValues.id) })).1.body.prop "delivery_info"
      = .ok .undefined := by
  cases res with
  | error e => rfl
  | ok p => exact OrdersService.toJSON_no_delivery_info _

/-- Claim C12: a `POST /orders` with `user_id`, `product` and a `delivery_address`, whose
insert the table accepts, and whose call to the delivery service fails (axios rejects:
a status outside 200 to 299, or no response), is answered 201 with the created order;
the order is in the table afterwards; no `delivery_info` was assigned and the body has
no such property. -/
theorem C12_order_kept_when_delivery_fails (s : ServiceState Order) (now : Date)
    (delivery : AxiosOutcome) (body : OrdersService.CreateBody) (user_id : Int)
    (product : String) (error : JsError)
    (hu : body.user_id = some user_id) (hu0 : user_id ≠ 0)
    (hp : body.product = some product) (hp0 : product ≠ "")
    (haddr : truthyStr body.delivery_address = true)
    (hfree : s.db.findByPk s.db.nextId = none)
    (hfail : axios defaultValidateStatus delivery = .error error) :
    ∃ newOrder : Order,
      newOrder.id = s.db.nextId ∧ newOrder.user_id = user_id ∧ newOrder.product = product ∧
      (OrdersService.postOrder s now delivery body).1 = ⟨201, OrdersService.toJSON newOrder⟩ ∧
      (OrdersService.postOrder s now delivery body).2.db.findByPk newOrder.id = some newOrder ∧
      (OrdersService.attachDelivery newOrder body.delivery_address delivery).delivery_info
        = none ∧
      (OrdersService.postOrder s now delivery body).1.body.prop "delivery_info"
        = .ok .undefined := by
  have hinfo : OrdersService.deliveryInfo delivery = none := by
    simp [OrdersService.deliveryInfo, hfail, bind, Except.bind]
  have hz : ¬ (user_id = 0 ∨ product = "") := by
    rintro (h | h)
    · exact hu0 h
    · exact hp0 h
  have hfree' : (s.db.findByPk s.db.nextId).isSome = false := by rw [hfree]; rfl
  refine ⟨⟨s.db.nextId, user_id, product,
      some (match body.amount with | some a => a | none => 0),
      (match body.status with
        | some status => if status != "" then status else "pending"
        | none => "pending"),
      now, now⟩, rfl, rfl, rfl, ?_, ?_, ?_, ?_⟩
  · simp only [OrdersService.postOrder, hu, hp, hz, if_false, OrdersService.create, hfree',
      Bool.false_eq_true, OrdersService.attachDelivery, haddr, if_true, hinfo,
      OrdersService.Instance.toJSON]
  · simp only [OrdersService.postOrder, hu, hp, hz, if_false, OrdersService.create, hfree',
      Bool.false_eq_true]
    exact Table.findByPk_insert_same s.db _ hfree
  · simp only [OrdersService.attachDelivery, haddr, if_true, hinfo]
  · simp only [OrdersService.postOrder, hu, hp, hz, if_false, OrdersService.create, hfree',
      Bool.false_eq_true, OrdersService.attachDelivery, haddr, if_true, hinfo,
      OrdersService.Instance.toJSON]
    rfl

/-- Witness of C12: the first order of the table, while the delivery service gives no
response. -/
theorem C12_order_kept_when_delivery_fails_witness :
    ∃ newOrder : Order,
      newOrder.id = Examples.noOrders.db.nextId ∧ newOrder.user_id = 1 ∧
      newOrder.product = "book" ∧
      (OrdersService.postOrder Examples.noOrders 2000 .noResponse Examples.bookOrder).1
        = ⟨201, OrdersService.toJSON newOrder⟩ ∧
      (OrdersService.postOrder Examples.noOrders 2000 .noResponse
        Examples.bookOrder).2.db.findByPk newOrder.id = some newOrder ∧
      (OrdersService.attachDelivery newOrder Examples.bookOrder.delivery_address
        .noResponse).delivery_info = none ∧
      (OrdersService.postOrder Examples.noOrders 2000 .noResponse
        Examples.bookOrder).1.body.prop "delivery_info" = .ok .undefined :=
  C12_order_kept_when_delivery_fails Examples.noOrders 2000 .noResponse Examples.bookOrder 1
    "book" (.axiosError none) rfl (by decide) rfl (by decide) rfl rfl rfl

/-- Claim C13, at the failing request: no answer of `POST /orders` has a property
`delivery_info`.  With the delivery service healthy, the call for order 1 is answered
201 with tracking number `TRK20000042`; the handler assigns `delivery_info`, with that
tracking number and the estimated date, on the instance; the body of the 201 answer
is the rendering of the columns of the order alone. -/
theorem C13_delivery_info_not_rendered :
    (∀ (s : ServiceState Order) (now : Date) (delivery : AxiosOutcome)
        (body : OrdersService.CreateBody),
      (OrdersService.postOrder s now delivery body).1.body.prop "delivery_info"
        = .ok .undefined) ∧
    axios defaultValidateStatus Examples.deliveryCreated
      = .ok ⟨201, DeliveryService.toJSON
          { id := 1, order_id := 1, address := "123 Main St", status := "pending",
            tracking_number := "TRK20000042", estimated_delivery_date := some 259202000,
            actual_delivery_date := none, createdAt := 2000, updatedAt := 2000 }⟩ ∧
    (OrdersService.attachDelivery Examples.order1 Examples.bookOrder.delivery_address
      Examples.deliveryCreated).delivery_info
      = some (.obj [("tracking_number", .str "TRK20000042"),
          ("estimated_delivery_date", .num 259202000)]) ∧
    (OrdersService.postOrder Examples.noOrders 2000 Examples.deliveryCreated
      Examples.bookOrder).1 = ⟨201, OrdersService.toJSON Examples.order1⟩ ∧
    (OrdersService.postOrder Examples.noOrders 2000 Examples.deliveryCreated
      Examples.bookOrder).2.db.findByPk 1 = some Examples.order1 := by
  refine ⟨?_, rfl, rfl, rfl, rfl⟩
  intro s now delivery body
  unfold OrdersService.postOrder
  split
  · split
    · rfl
    · exact OrdersService.created_no_delivery_info s _ _ _
  · rfl

/-! ## Claims on the list routes and on tracking numbers -/

/-- Claim C14: `GET /deliveries` (with or without `order_id`),
`GET /deliveries/tracking/:trackingNumber`, `GET /orders` (with or without `user_id`) and
`GET /users` leave the state, and so the cache, as it was, and their answer is the same
whatever the cache holds: it is computed from the table alone. -/
theorem C14_lists_bypass_cache :
    (∀ (db : Table Delivery) (cache cache' : Redis) (order_id : Option String),
      (DeliveryService.getDeliveries ⟨db, cache⟩ order_id).2 = ⟨db, cache⟩ ∧
      (DeliveryService.getDeliveries ⟨db, cache⟩ order_id).1
        = (DeliveryService.getDeliveries ⟨db, cache'⟩ order_id).1) ∧
    (∀ (db : Table Delivery) (cache cache' : Redis) (trackingNumber : String),
      (DeliveryService.getDeliveryByTracking ⟨db, cache⟩ trackingNumber).2 = ⟨db, cache⟩ ∧
      (DeliveryService.getDeliveryByTracking ⟨db, cache⟩ trackingNumber).1
        = (DeliveryService.getDeliveryByTracking ⟨db, cache'⟩ trackingNumber).1) ∧
    (∀ (db : Table Order) (cache cache' : Redis) (user_id : Option String),
      (OrdersService.getOrders ⟨db, cache⟩ user_id).2 = ⟨db, cache⟩ ∧
      (OrdersService.getOrders ⟨db, cache⟩ user_id).1
        = (OrdersService.getOrders ⟨db, cache'⟩ user_id).1) ∧
    (∀ (db : Table User) (cache cache' : Redis),
      (UsersService.getUsers ⟨db, cache⟩).2 = ⟨db, cache⟩ ∧
      (UsersService.getUsers ⟨db, cache⟩).1 = (UsersService.getUsers ⟨db, cache'⟩).1) := by
  refine ⟨fun _ _ _ _ => ⟨rfl, rfl⟩, ?_, fun _ _ _ _ => ⟨rfl, rfl⟩, fun _ _ _ => ⟨rfl, rfl⟩⟩
  intro db cache cache' trackingNumber
  unfold DeliveryService.getDeliveryByTracking
  simp only []
  cases db.rows.find? (fun (d : Delivery) => d.tracking_number == trackingNumber) with
  | none => exact ⟨rfl, rfl⟩
  | some d => exact ⟨rfl, rfl⟩

/-! ### Tracking numbers -/

/-- The character of a decimal digit is a digit. -/
theorem digitChar_isDigit (k : Nat) (h : k < 10) : (Nat.digitChar k).isDigit = true := by
  interval_cases k <;> rfl

/-- The decimal text of a number is made of digits. -/
theorem toDigitsCore_isDigit (fuel n : Nat) (ds : List Char)
    (h : ∀ c ∈ ds, c.isDigit = true) :
    ∀ c ∈ Nat.toDigitsCore 10 fuel n ds, c.isDigit = true := by
  induction fuel generalizing n ds with
  | zero => simpa [Nat.toDigitsCore] using h
  | succ fuel ih =>
    have hd : ∀ c ∈ Nat.digitChar (n % 10) :: ds, c.isDigit = true := by
      intro c hc
      rcases List.mem_cons.1 hc with hc | hc
      · rw [hc]; exact digitChar_isDigit _ (Nat.mod_lt _ (by decide))
      · exact h c hc
    simp only [Nat.toDigitsCore]
    split
    · exact hd
    · exact ih _ _ hd

theorem toDigits_isDigit (n : Nat) : ∀ c ∈ Nat.toDigits 10 n, c.isDigit = true :=
  toDigitsCore_isDigit _ _ [] (by simp)

/-- Reading the decimal text of a number gives the number back. -/
theorem toDigits_decode (n : Nat) :
    List.foldl (fun acc (c : Char) => acc * 10 + (c.toNat - 48)) 0 (Nat.toDigits 10 n) = n := by
  have := toDigitsCore_decode (n + 1) n [] (by omega)
  simpa [Nat.toDigits] using this

/-- Reading digits after a value shifts that value by their number of places. -/
theorem decode_shift (xs : List Char) (a : Nat) :
    List.foldl (fun acc (c : Char) => acc * 10 + (c.toNat - 48)) a xs
      = a * 10 ^ xs.length
        + List.foldl (fun acc (c : Char) => acc * 10 + (c.toNat - 48)) 0 xs := by
  induction xs generalizing a with
  | nil => simp
  | cons x xs ih =>
    simp only [List.foldl_cons, List.length_cons]
    rw [ih (a * 10 + (x.toNat - 48)), ih (0 * 10 + (x.toNat - 48))]
    ring

/-- Leading zeros do not change the number read. -/
theorem decode_zeros (k : Nat) (ds : List Char) :
    List.foldl (fun acc (c : Char) => acc * 10 + (c.toNat - 48)) 0 (List.replicate k '0' ++ ds)
      = List.foldl (fun acc (c : Char) => acc * 10 + (c.toNat - 48)) 0 ds := by
  induction k with
  | zero => simp
  | succ k ih =>
    simp only [List.replicate_succ, List.cons_append, List.foldl_cons]
    exact ih

theorem padStart_data (text : String) (width : Nat) :
    (DeliveryService.padStart text width).data = List.replicate (width - text.length) '0' ++ text.data := by
  simp [DeliveryService.padStart]

/-- The characters of a tracking number. -/
theorem generateTrackingNumber_data (t r : Nat) :
    (DeliveryService.generateTrackingNumber t r).data =
      ['T', 'R', 'K'] ++ (Nat.toDigits 10 t ++
        (List.replicate (4 - (Nat.toDigits 10 r).length) '0' ++ Nat.toDigits 10 r)) := by
  have h1 : (toString t).data = Nat.toDigits 10 t := by
    rfl
  have h2 : (toString r).data = Nat.toDigits 10 r := by
    rfl
  have h3 : (toString r).length = (Nat.toDigits 10 r).length := by
    rw [← h2]; rfl
  simp only [DeliveryService.generateTrackingNumber, String.data_append, padStart_data, h1, h2, h3]
  rfl

/-- The digits of a tracking number read as `timestamp * 10000 + random`. -/
theorem tracking_decode (t r : Nat) (hr : r < 10000) :
    List.foldl (fun acc (c : Char) => acc * 10 + (c.toNat - 48)) 0
      (Nat.toDigits 10 t ++
        (List.replicate (4 - (Nat.toDigits 10 r).length) '0' ++ Nat.toDigits 10 r))
      = t * 10000 + r := by
  have hlen : (Nat.toDigits 10 r).length ≤ 4 := by
    have := Nat.repr_length r 4 (by decide) (by simpa using hr)
    simpa [Nat.repr] using this
  rw [List.foldl_append, toDigits_decode, decode_shift, decode_zeros, toDigits_decode]
  have : (List.replicate (4 - (Nat.toDigits 10 r).length) '0' ++ Nat.toDigits 10 r).length = 4 := by
    simp only [List.length_append, List.length_replicate]
    omega
  rw [this]
  norm_num


theorem DeliveryService.tracking_of_create (db db' : Table Delivery) (now : Date)
    (order_id : Int) (address status tracking_number : String) (estimated : Option Date)
    (d : Delivery)
    (h : DeliveryService.create db now order_id address status tracking_number estimated
      = .ok (d, db')) :
    d.tracking_number = tracking_number ∧ db.findByPk db.nextId = none := by
  unfold DeliveryService.create at h
  split at h
  · split at h
    · cases h
    · rename_i hfree
      split at h
      · cases h
      · cases h
        refine ⟨rfl, ?_⟩
        cases hf : db.findByPk db.nextId with
        | none => rfl
        | some r => rw [hf] at hfree; exact absurd rfl hfree
  · cases h

theorem DeliveryService.stored_of_create (s : ServiceState Delivery) (tracking_number : String)
    (res : Except JsError (Delivery × Table Delivery)) :
    (∀ d db, res = .ok (d, db) → d.id = s.db.nextId ∧ db = s.db.insert d ∧
      d.tracking_number = tracking_number ∧ s.db.findByPk s.db.nextId = none) →
    (match res with
      | .error _ => (internalServerError, s)
      | .ok (newDelivery, db) =>
        (⟨201, DeliveryService.toJSON newDelivery⟩,
          { db := db,
            cache := s.cache.del (DeliveryService.getCacheKey newDelivery.id) })).1.status
      = 201 →
    ∃ row,
      (match res with
        | .error _ => (internalServerError, s)
        | .ok (newDelivery, db) =>
          (⟨201, DeliveryService.toJSON newDelivery⟩,
            { db := db,
              cache := s.cache.del
                (DeliveryService.getCacheKey newDelivery.id) })).2.db.findByPk s.db.nextId
        = some row ∧
      row.tracking_number = tracking_number ∧
      (match res with
        | .error _ => (internalServerError, s)
        | .ok (newDelivery, db) =>
          (⟨201, DeliveryService.toJSON newDelivery⟩,
            { db := db,
              cache := s.cache.del (DeliveryService.getCacheKey newDelivery.id) })).1.body
        = DeliveryService.toJSON row := by
  intro hres hs
  cases res with
  | error e =>
    have h500 : (500 : Nat) = 201 := hs
    exact absurd h500 (by decide)
  | ok p =>
    obtain ⟨d, db⟩ := p
    obtain ⟨hid, hdb, htn, hfree⟩ := hres d db rfl
    refine ⟨d, ?_, htn, rfl⟩
    show db.findByPk s.db.nextId = some d
    rw [hdb, ← hid]
    apply Table.findByPk_insert_same
    show s.db.findByPk d.id = none
    rw [hid]; exact hfree

/-- Claim C15: for every timestamp and every value of the random component,
`generateTrackingNumber` gives the text `TRK` followed by decimal digits, at least one,
and nothing else; and a `POST /deliveries` that is answered 201 stores a row whose
`tracking_number` is that generated text, which is also the one of the answer, whatever
the body of the request. -/
theorem C15_tracking_number_pattern (timestamp random : Nat) :
    (∃ digits : List Char,
      DeliveryService.generateTrackingNumber timestamp random = "TRK" ++ String.mk digits ∧
      digits ≠ [] ∧ ∀ c ∈ digits, c.isDigit = true) ∧
    (∀ (s : ServiceState Delivery) (body : DeliveryService.CreateBody),
      (DeliveryService.postDelivery s timestamp random body).1.status = 201 →
      ∃ row,
        (DeliveryService.postDelivery s timestamp random body).2.db.findByPk s.db.nextId
          = some row ∧
        row.tracking_number = DeliveryService.generateTrackingNumber timestamp random ∧
        (DeliveryService.postDelivery s timestamp random body).1.body
          = DeliveryService.toJSON row) := by
  constructor
  · refine ⟨Nat.toDigits 10 timestamp ++
      (List.replicate (4 - (Nat.toDigits 10 random).length) '0' ++ Nat.toDigits 10 random),
      ?_, ?_, ?_⟩
    · apply String.ext
      rw [generateTrackingNumber_data]
      rfl
    · intro h
      have hl := congrArg List.length h
      simp only [List.length_append, List.length_replicate, List.length_nil] at hl
      omega
    · intro c hc
      rcases List.mem_append.1 hc with hc | hc
      · exact toDigits_isDigit _ c hc
      · rcases List.mem_append.1 hc with hc | hc
        · rw [List.eq_of_mem_replicate hc]
          rfl
        · exact toDigits_isDigit _ c hc
  · intro s body hs
    unfold DeliveryService.postDelivery at hs ⊢
    split at hs
    · split at hs
      · have h400 : (400 : Nat) = 201 := hs
        exact absurd h400 (by decide)
      · rename_i hz
        rw [if_neg hz]
        exact DeliveryService.stored_of_create s _ _
          (fun d db h =>
            ⟨(DeliveryService.delivery_create_ok _ _ _ _ _ _ _ _ _ h).1,
              (DeliveryService.delivery_create_ok _ _ _ _ _ _ _ _ _ h).2,
              (DeliveryService.tracking_of_create _ _ _ _ _ _ _ _ _ h).1,
              (DeliveryService.tracking_of_create _ _ _ _ _ _ _ _ _ h).2⟩) hs
    · have h400 : (400 : Nat) = 201 := hs
      exact absurd h400 (by decide)

/-- Witness of C15: the first delivery of the table, created at time 2000 with random
component 42. -/
theorem C15_tracking_number_pattern_witness :
    (DeliveryService.postDelivery Examples.noDeliveries 2000 42
      Examples.deliveryFor1).1.status = 201 ∧
    ∃ row,
      (DeliveryService.postDelivery Examples.noDeliveries 2000 42
        Examples.deliveryFor1).2.db.findByPk Examples.noDeliveries.db.nextId = some row ∧
      row.tracking_number = DeliveryService.generateTrackingNumber 2000 42 ∧
      (DeliveryService.postDelivery Examples.noDeliveries 2000 42 Examples.deliveryFor1).1.body
        = DeliveryService.toJSON row :=
  ⟨by decide, (C15_tracking_number_pattern 2000 42).2 Examples.noDeliveries
    Examples.deliveryFor1 (by decide)⟩

/-- Claim C18: `generateTrackingNumber` is injective: for all timestamps and all random
components from 0 to 9999, which are padded to four digits, two equal tracking numbers
have the same timestamp and the same random component. -/
theorem C18_tracking_number_injective (t1 t2 r1 r2 : Nat) (h1 : r1 < 10000) (h2 : r2 < 10000)
    (h : DeliveryService.generateTrackingNumber t1 r1
      = DeliveryService.generateTrackingNumber t2 r2) :
    t1 = t2 ∧ r1 = r2 := by
  have hd := congrArg String.data h
  rw [generateTrackingNumber_data, generateTrackingNumber_data] at hd
  have hd' := List.append_cancel_left hd
  have e1 := tracking_decode t1 r1 h1
  have e2 := tracking_decode t2 r2 h2
  rw [hd'] at e1
  rw [e1] at e2
  omega

/-- Witness of C18: the tracking number of timestamp 2000 and random component 42. -/
theorem C18_tracking_number_injective_witness :
    DeliveryService.generateTrackingNumber 2000 42 = "TRK20000042" ∧
    ((2000 : Nat) = 2000 ∧ (42 : Nat) = 42) :=
  ⟨by decide, C18_tracking_number_injective 2000 2000 42 42 (by decide) (by decide) rfl⟩

/-- Claim C16, at the failing requests: `GET /orders` narrows the rows to those of a
user exactly when `parseInt` makes a number other than 0 of the parameter `user_id`.
With an order of user 1 and an order of user 2 in the table, `GET /orders?user_id=0` and
`GET /orders?user_id=abc` answer with both orders, while `GET /orders?user_id=2` answers
with the order of user 2; `GET /deliveries?order_id=0` answers with the delivery of
order 3. -/
theorem C16_filter_skipped_for_zero :
    (∀ (s : ServiceState Order) (text : String),
      (OrdersService.getOrders s (some text)).1 =
        ⟨200, .arr ((match parseInt text with
          | some n => if n = 0 then s.db.rows
            else s.db.rows.filter (fun (o : Order) => o.user_id == n)
          | none => s.db.rows).map OrdersService.toJSON)⟩) ∧
    parseInt "0" = some 0 ∧
    (OrdersService.getOrders Examples.twoOrders (some "0")).1
      = ⟨200, .arr [OrdersService.toJSON Examples.order1,
          OrdersService.toJSON Examples.order2]⟩ ∧
    Examples.order1.user_id = 1 ∧
    parseInt "abc" = none ∧
    (OrdersService.getOrders Examples.twoOrders (some "abc")).1
      = ⟨200, .arr [OrdersService.toJSON Examples.order1,
          OrdersService.toJSON Examples.order2]⟩ ∧
    (OrdersService.getOrders Examples.twoOrders (some "2")).1
      = ⟨200, .arr [OrdersService.toJSON Examples.order2]⟩ ∧
    (DeliveryService.getDeliveries (Examples.deliveryState Examples.pending7) (some "0")).1
      = ⟨200, .arr [DeliveryService.toJSON Examples.pending7]⟩ ∧
    Examples.pending7.order_id = 3 := by
  refine ⟨?_, rfl, rfl, rfl, rfl, rfl, rfl, rfl, rfl⟩
  intro s text
  unfold OrdersService.getOrders
  by_cases ht : text = ""
  · subst ht
    rfl
  · have ht' : (text != "") = true := by simpa using ht
    simp only [ht', if_true]
    cases parseInt text with
    | none => rfl
    | some n =>
      by_cases hn : n = 0
      · subst hn
        rfl
      · have hn' : (n != 0) = true := by simpa using hn
        simp only [hn', if_true, hn, if_false]

/-! ## Claim on the opening of a breaker -/

/-- While an open breaker waits, every call of a sequence settles with the fallback, is
not executed and leaves the record as it is. -/
theorem CircuitState.fireAll_opened_wait (options : CircuitOptions) (fallback : Json)
    (c : CircuitState) (calls : List (Nat × Except JsError Json)) (hc : c.state = .opened)
    (hcalls : ∀ call ∈ calls, call.1 < c.openedAt + options.resetTimeout) :
    (c.fireAll options (some fallback) calls).1
      = List.replicate calls.length ⟨.ok fallback, c, false⟩ ∧
    (c.fireAll options (some fallback) calls).2 = c := by
  induction calls with
  | nil => exact ⟨rfl, rfl⟩
  | cons call rest ih =>
    obtain ⟨now, operation⟩ := call
    have hnow : now < c.openedAt + options.resetTimeout :=
      hcalls (now, operation) (List.mem_cons_self _ _)
    have hrest := ih (fun call h => hcalls call (List.mem_cons_of_mem _ h))
    have hf := CircuitState.fire_opened_wait options (some fallback) c now operation hc hnow
    simp only [CircuitState.fireAll, hf, hrest, List.length_cons, List.replicate_succ]
    exact ⟨trivial, trivial⟩

/-- Claim C17, on the breaker as the spec describes it, with the options of the
gateway (threshold 50 percent, `resetTimeout` 3000 ms).  A failing call through a
closed breaker is executed and settles with the fallback; it opens the breaker exactly
when it makes the failure rate reach the threshold, and the time of opening is the
time of that call; the first failing call of a breaker that has answered nothing yet
opens it.  From then on, every call made before `resetTimeout` has elapsed settles with
the fallback and is not executed, and the breaker stays open. -/
theorem C17_breaker_opens (c : CircuitState) (fallback : Json) (now : Nat) (error : JsError)
    (calls : List (Nat × Except JsError Json)) (hc : c.state = .closed)
    (hcalls : ∀ call ∈ calls, call.1 < now + 3000) :
    (c.fire Gateway.circuitOptions (some fallback) now (.error error)).payload = .ok fallback ∧
    (c.fire Gateway.circuitOptions (some fallback) now (.error error)).executed = true ∧
    ((c.fire Gateway.circuitOptions (some fallback) now (.error error)).circuit.state = .opened
      ↔ 50 * (c.requestCount + 1) ≤ (c.failureCount + 1) * 100) ∧
    (CircuitState.initial.fire Gateway.circuitOptions (some fallback) now
      (.error error)).circuit.state = .opened ∧
    (50 * (c.requestCount + 1) ≤ (c.failureCount + 1) * 100 →
      (c.fire Gateway.circuitOptions (some fallback) now (.error error)).circuit.openedAt
        = now ∧
      ((c.fire Gateway.circuitOptions (some fallback) now (.error error)).circuit.fireAll
          Gateway.circuitOptions (some fallback) calls).1
        = List.replicate calls.length
          ⟨.ok fallback,
            (c.fire Gateway.circuitOptions (some fallback) now (.error error)).circuit,
            false⟩ ∧
      ((c.fire Gateway.circuitOptions (some fallback) now (.error error)).circuit.fireAll
          Gateway.circuitOptions (some fallback) calls).2.state = .opened) := by
  have hf := CircuitState.fire_closed_error Gateway.circuitOptions (some fallback) c now error hc
  have hthr : Gateway.circuitOptions.errorThresholdPercentage = 50 := rfl
  rw [hthr] at hf
  refine ⟨?_, ?_, ?_, rfl, ?_⟩
  · rw [hf]; split <;> rfl
  · rw [hf]; split <;> rfl
  · rw [hf]
    constructor
    · intro h
      by_contra hn
      have hn' : ¬ ((c.failureCount + 1) * 100 ≥ 50 * (c.requestCount + 1)) := hn
      rw [if_neg hn'] at h
      cases h
    · intro h
      have h' : (c.failureCount + 1) * 100 ≥ 50 * (c.requestCount + 1) := h
      rw [if_pos h']
  · intro hrate
    have h' : (c.failureCount + 1) * 100 ≥ 50 * (c.requestCount + 1) := hrate
    rw [hf, if_pos h']
    have hw := CircuitState.fireAll_opened_wait Gateway.circuitOptions fallback
      ⟨.opened, c.failureCount + 1, c.requestCount + 1, now⟩ calls rfl hcalls
    refine ⟨rfl, hw.1, ?_⟩
    rw [hw.2]

/-- Witness of C17: a closed breaker with one answered call fails at time 1000, which
makes the rate 50 percent; the calls at times 1500 and 3999 are not executed. -/
theorem C17_breaker_opens_witness :
    ((CircuitState.fire Gateway.circuitOptions (some Gateway.usersFallback) ⟨.closed, 0, 1, 0⟩
        1000 (.error (.axiosError none))).circuit.fireAll Gateway.circuitOptions
        (some Gateway.usersFallback) [(1500, .ok .null), (3999, .error (.axiosError none))]).1
      = List.replicate 2
        ⟨.ok Gateway.usersFallback,
          (CircuitState.fire Gateway.circuitOptions (some Gateway.usersFallback)
            ⟨.closed, 0, 1, 0⟩ 1000 (.error (.axiosError none))).circuit,
          false⟩ :=
  ((C17_breaker_opens ⟨.closed, 0, 1, 0⟩ Gateway.usersFallback 1000 (.axiosError none)
    [(1500, .ok .null), (3999, .error (.axiosError none))] rfl
    (by
      intro call h
      simp only [List.mem_cons, List.mem_singleton, List.not_mem_nil, or_false] at h
      rcases h with h | h <;> rw [h] <;> decide)).2.2.2.2 (by decide)).2.1

end Refactor3
